import Mathlib

/-!
# Event translation of the iOS7 backend (`backends/platform/ios7/ios7_osys_events.cpp`)

A shallow embedding of `OSystem_iOS7::pollEvent` and of its handlers, followed
by the properties of the event translator that are established on it.

Conventions of the embedding.

* The members of `OSystem_iOS7` that the file reads or writes are the fields of
  `State`; the leading underscore of the C++ member names is dropped.
* `Common::Event &event` is an in/out argument: a handler receives the buffer
  of the caller and gives back the buffer with the members it assigned.
* `getMillis()` is the argument `now`: the clock is read once per poll and
  every `getMillis()` of that poll yields the same value.
* `iOS7_fetchEvent` is the argument `raw`: what the platform bridge hands over
  if the poll asks for it (`none` when nothing is waiting).
* Integers are mathematical integers: coordinates and timestamps are assumed
  to stay inside the range of the C++ types that hold them.
* The timer callback, the modal message dialog, the surface rebuild and the
  suspend loop are external collaborators; they do not touch the fields of
  `State` other than as written below.
-/

namespace IOS7

/-! ## Data model -/

/-- Portable event kinds (`Common::EventType`) that the translator assigns. -/
inductive EventType where
  | EVENT_INVALID
  | EVENT_KEYDOWN
  | EVENT_KEYUP
  | EVENT_MOUSEMOVE
  | EVENT_LBUTTONDOWN
  | EVENT_LBUTTONUP
  | EVENT_RBUTTONDOWN
  | EVENT_RBUTTONUP
  | EVENT_MAINMENU
  | EVENT_JOYAXIS_MOTION
  | EVENT_JOYBUTTON_DOWN
  | EVENT_JOYBUTTON_UP
  | EVENT_INPUT_CHANGED
  deriving DecidableEq, Repr

/-- Keyboard part of an event (`event.kbd`). -/
structure KeyState where
  keycode : Int
  ascii : Int
  flags : Int
  deriving DecidableEq, Repr

/-- Position part of an event (`event.mouse`). -/
structure Point where
  x : Int
  y : Int
  deriving DecidableEq, Repr

/-- Joystick part of an event (`event.joystick`). -/
structure JoystickState where
  axis : Int
  position : Int
  button : Int
  deriving DecidableEq, Repr

/-- Portable event (`Common::Event`): the members this file assigns. -/
structure Event where
  type : EventType
  kbd : KeyState
  mouse : Point
  joystick : JoystickState
  deriving DecidableEq, Repr

/-- Raw event kinds: one constructor per `case` label of the `switch` in
`pollEvent`, and `kInputOther` for every value that has no label (the
`default:` branch). -/
inductive InputEvent where
  | kInputMouseDown
  | kInputMouseUp
  | kInputMouseDragged
  | kInputOrientationChanged
  | kInputApplicationSuspended
  | kInputApplicationResumed
  | kInputApplicationSaveState
  | kInputApplicationRestoreState
  | kInputApplicationClearState
  | kInputMouseSecondDragged
  | kInputMouseSecondDown
  | kInputMouseSecondUp
  | kInputKeyPressed
  | kInputSwipe
  | kInputTap
  | kInputMainMenu
  | kInputJoystickAxisMotion
  | kInputJoystickButtonDown
  | kInputJoystickButtonUp
  | kInputChanged
  | kInputOther (code : Nat)
  deriving DecidableEq, Repr

/-- Raw event (`InternalEvent`): a kind and two integer payloads. -/
structure InternalEvent where
  type : InputEvent
  value1 : Int
  value2 : Int
  deriving DecidableEq, Repr

/-- Screen orientation (`ScreenOrientation`). -/
inductive ScreenOrientation where
  | kScreenOrientationPortrait
  | kScreenOrientationFlippedPortrait
  | kScreenOrientationLandscape
  | kScreenOrientationFlippedLandscape
  deriving DecidableEq, Repr

/-- The members of `_videoContext` that the translator reads or writes. -/
structure VideoContext where
  mouseX : Int
  mouseY : Int
  overlayVisible : Bool
  overlayWidth : Int
  overlayHeight : Int
  screenWidth : Int
  screenHeight : Int
  deriving DecidableEq, Repr

/-- The members of `OSystem_iOS7` used by the event translation. -/
structure State where
  timerCallback : Bool
  timerCallbackNext : Int
  timerCallbackTimer : Int
  queuedInputEvent : Event
  queuedEventTime : Int
  lastMouseDown : Int
  lastMouseTap : Int
  lastSecondaryDown : Int
  lastSecondaryTap : Int
  secondaryTapped : Bool
  touchpadModeEnabled : Bool
  mouseClickAndDragEnabled : Bool
  lastPadX : Int
  lastPadY : Int
  lastDragPosX : Int
  lastDragPosY : Int
  gestureStartX : Int
  gestureStartY : Int
  screenOrientation : ScreenOrientation
  videoContext : VideoContext
  deriving DecidableEq, Repr

/-- What a `handleEvent_*` member gives back: its `bool` result, the event
buffer and the object state. -/
structure HandlerResult where
  ret : Bool
  event : Event
  state : State
  deriving DecidableEq, Repr

/-- What `pollEvent` gives back: its `bool` result, the event buffer, the
object state, and whether `iOS7_fetchEvent` was called. -/
structure PollResult where
  ret : Bool
  event : Event
  state : State
  fetched : Bool
  deriving DecidableEq, Repr

/-! ## Constants -/

/-- The constant `kQueuedInputEventDelay` of the source file. -/
def kQueuedInputEventDelay : Int := 50

/-- The local constant `kNeededLength` of `handleEvent_mouseSecondDragged`. -/
def kNeededLength : Int := 100

/-- The local constant `kMaxDeviation` of `handleEvent_mouseSecondDragged`. -/
def kMaxDeviation : Int := 20

/-- Modelled from the spec: `Common::KEYCODE_RETURN`, the Return key of the
engine, declared in `common/keyboard.h` (not among the sources). -/
def KEYCODE_RETURN : Int := 13

/-- Modelled from the spec: `Common::ASCII_RETURN`, carriage return, declared
in `common/keyboard.h` (not among the sources). -/
def ASCII_RETURN : Int := 13

/-- Modelled from the spec: `Common::KEYCODE_ESCAPE`, declared in
`common/keyboard.h` (not among the sources). -/
def KEYCODE_ESCAPE : Int := 27

/-- Modelled from the spec: `Common::ASCII_ESCAPE`, declared in
`common/keyboard.h` (not among the sources). -/
def ASCII_ESCAPE : Int := 27

/-- Modelled from the spec: `Common::KEYCODE_INVALID`, declared in
`common/keyboard.h` (not among the sources). -/
def KEYCODE_INVALID : Int := 0

/-- Modelled from the spec: `Common::KEYCODE_UP`, declared in
`common/keyboard.h` (not among the sources). -/
def KEYCODE_UP : Int := 273

/-- Modelled from the spec: `Common::KEYCODE_DOWN`, declared in
`common/keyboard.h` (not among the sources). -/
def KEYCODE_DOWN : Int := 274

/-- Modelled from the spec: `Common::KEYCODE_RIGHT`, declared in
`common/keyboard.h` (not among the sources). -/
def KEYCODE_RIGHT : Int := 275

/-- Modelled from the spec: `Common::KEYCODE_LEFT`, declared in
`common/keyboard.h` (not among the sources). -/
def KEYCODE_LEFT : Int := 276

/-- Modelled from the spec: the swipe direction `kUIViewSwipeUp`, declared in
`ios7_common.h` (not among the sources). -/
def kUIViewSwipeUp : Int := 1

/-- Modelled from the spec: the swipe direction `kUIViewSwipeDown`, declared
in `ios7_common.h` (not among the sources). -/
def kUIViewSwipeDown : Int := 2

/-- Modelled from the spec: the swipe direction `kUIViewSwipeLeft`, declared
in `ios7_common.h` (not among the sources). -/
def kUIViewSwipeLeft : Int := 4

/-- Modelled from the spec: the swipe direction `kUIViewSwipeRight`, declared
in `ios7_common.h` (not among the sources). -/
def kUIViewSwipeRight : Int := 8

/-- Modelled from the spec: the tap description `kUIViewTapSingle`, declared
in `ios7_common.h` (not among the sources). -/
def kUIViewTapSingle : Int := 1

/-- Modelled from the spec: the tap description `kUIViewTapDouble`, declared
in `ios7_common.h` (not among the sources). -/
def kUIViewTapDouble : Int := 2

/-! ## External collaborators -/

/-- Modelled from the spec: the cursor-warp primitive `warpMouse`, defined in
the video part of the backend (not among the sources); it moves the cursor of
the video context to the given position. -/
def warpMouse (s : State) (x y : Int) : State :=
  { s with videoContext := { s.videoContext with mouseX := x, mouseY := y } }

/-- The conversion `(int)` of a floating-point value, which drops the
fractional part (rounds towards zero). The value is an exact rational: the
single-precision operations of the source are taken to be exact, which they
are for operands below `2 ^ 23` in absolute value. -/
def floatToInt (q : ℚ) : Int :=
  if 0 ≤ q then ⌊q⌋ else ⌈q⌉

/-! ## Handlers -/

/-- The member `OSystem_iOS7::handleEvent_mouseDown`. -/
def handleEvent_mouseDown (s : State) (now : Int) (event : Event) (x y : Int) :
    HandlerResult :=
  let s1 := { s with secondaryTapped := false }
  let s2 := if s1.touchpadModeEnabled then { s1 with lastPadX := x, lastPadY := y }
            else warpMouse s1 x y
  if s2.mouseClickAndDragEnabled then
    { ret := true
      event := { event with
        type := EventType.EVENT_LBUTTONDOWN
        mouse := { x := s2.videoContext.mouseX, y := s2.videoContext.mouseY } }
      state := s2 }
  else
    { ret := false, event := event, state := { s2 with lastMouseDown := now } }

/-- The member `OSystem_iOS7::handleEvent_secondMouseUp`. -/
def handleEvent_secondMouseUp (s : State) (now : Int) (event : Event) (_x _y : Int) :
    HandlerResult :=
  let curTime := now
  let cursor : Point := { x := s.videoContext.mouseX, y := s.videoContext.mouseY }
  -- the tap branch: `none` stands for its `return false`
  let tap : Option (Event × State) :=
    if curTime - s.lastSecondaryDown < 400 then
      if curTime - s.lastSecondaryTap < 400 ∧ s.videoContext.overlayVisible = false then
        some ({ event with
                type := EventType.EVENT_KEYDOWN
                kbd := { keycode := KEYCODE_ESCAPE, ascii := ASCII_ESCAPE, flags := 0 } },
              { s with
                queuedInputEvent := { s.queuedInputEvent with
                  type := EventType.EVENT_KEYUP
                  kbd := { keycode := KEYCODE_ESCAPE, ascii := ASCII_ESCAPE, flags := 0 } }
                queuedEventTime := curTime + kQueuedInputEventDelay
                lastSecondaryTap := 0 })
      else if s.mouseClickAndDragEnabled = false then
        some ({ event with type := EventType.EVENT_RBUTTONDOWN, mouse := cursor },
              { s with
                queuedInputEvent := { s.queuedInputEvent with
                  type := EventType.EVENT_RBUTTONUP
                  mouse := cursor }
                lastSecondaryTap := curTime
                queuedEventTime := curTime + kQueuedInputEventDelay })
      else
        none
    else
      some (event, s)
  match tap with
  | none => { ret := false, event := event, state := s }
  | some (e1, s1) =>
    if s1.mouseClickAndDragEnabled then
      { ret := true
        event := { e1 with
          type := EventType.EVENT_RBUTTONUP
          mouse := { x := s1.videoContext.mouseX, y := s1.videoContext.mouseY } }
        state := s1 }
    else
      { ret := true, event := e1, state := s1 }

/-- The member `OSystem_iOS7::handleEvent_mouseUp`. -/
def handleEvent_mouseUp (s : State) (now : Int) (event : Event) (x y : Int) :
    HandlerResult :=
  let cursor : Point := { x := s.videoContext.mouseX, y := s.videoContext.mouseY }
  if s.secondaryTapped then
    handleEvent_secondMouseUp { s with secondaryTapped := false } now event x y
  else if s.mouseClickAndDragEnabled then
    { ret := true
      event := { event with type := EventType.EVENT_LBUTTONUP, mouse := cursor }
      state := s }
  else if now - s.lastMouseDown < 250 then
    { ret := true
      event := { event with type := EventType.EVENT_LBUTTONDOWN, mouse := cursor }
      state := { s with
        queuedInputEvent := { s.queuedInputEvent with
          type := EventType.EVENT_LBUTTONUP
          mouse := cursor }
        lastMouseTap := now
        queuedEventTime := now + kQueuedInputEventDelay } }
  else
    { ret := false, event := event, state := s }

/-- The member `OSystem_iOS7::handleEvent_secondMouseDown`. -/
def handleEvent_secondMouseDown (s : State) (now : Int) (event : Event) (x y : Int) :
    HandlerResult :=
  let s1 := { s with lastSecondaryDown := now, gestureStartX := x, gestureStartY := y }
  let cursor : Point := { x := s1.videoContext.mouseX, y := s1.videoContext.mouseY }
  if s1.mouseClickAndDragEnabled then
    { ret := true
      event := { event with type := EventType.EVENT_LBUTTONUP, mouse := cursor }
      state := { s1 with
        queuedInputEvent := { s1.queuedInputEvent with
          type := EventType.EVENT_RBUTTONDOWN
          mouse := cursor } } }
  else
    { ret := false, event := event, state := s1 }

/-- The member `OSystem_iOS7::handleEvent_mouseDragged`. -/
def handleEvent_mouseDragged (s : State) (_now : Int) (event : Event) (x y : Int) :
    HandlerResult :=
  if s.lastDragPosX = x ∧ s.lastDragPosY = y then
    { ret := false, event := event, state := s }
  else
    let s1 := { s with lastDragPosX := x, lastDragPosY := y }
    if s1.touchpadModeEnabled then
      let deltaX := s1.lastPadX - x
      let deltaY := s1.lastPadY - y
      let s2 := { s1 with lastPadX := x, lastPadY := y }
      let mouseNewPosX0 := floatToInt ((s2.videoContext.mouseX : ℚ) - (deltaX : ℚ) / (1 / 2))
      let mouseNewPosY0 := floatToInt ((s2.videoContext.mouseY : ℚ) - (deltaY : ℚ) / (1 / 2))
      let widthCap := if s2.videoContext.overlayVisible then s2.videoContext.overlayWidth
                      else s2.videoContext.screenWidth
      let heightCap := if s2.videoContext.overlayVisible then s2.videoContext.overlayHeight
                       else s2.videoContext.screenHeight
      let mouseNewPosX := if mouseNewPosX0 < 0 then 0
                          else if mouseNewPosX0 > widthCap then widthCap else mouseNewPosX0
      let mouseNewPosY := if mouseNewPosY0 < 0 then 0
                          else if mouseNewPosY0 > heightCap then heightCap else mouseNewPosY0
      { ret := true
        event := { event with
          type := EventType.EVENT_MOUSEMOVE
          mouse := { x := mouseNewPosX, y := mouseNewPosY } }
        state := warpMouse s2 mouseNewPosX mouseNewPosY }
    else
      { ret := true
        event := { event with type := EventType.EVENT_MOUSEMOVE, mouse := { x := x, y := y } }
        state := warpMouse s1 x y }

/-- The member `OSystem_iOS7::handleEvent_mouseSecondDragged`. The message
dialog shown by the two mode toggles is an external collaborator. -/
def handleEvent_mouseSecondDragged (s : State) (now : Int) (event : Event) (x y : Int) :
    HandlerResult :=
  if s.gestureStartX = -1 ∨ s.gestureStartY = -1 then
    { ret := false, event := event, state := s }
  else
    let vecX := x - s.gestureStartX
    let vecY := y - s.gestureStartY
    let absX := |vecX|
    let absY := |vecY|
    if absX ≥ kNeededLength ∨ absY ≥ kNeededLength then
      let s1 := { s with gestureStartX := -1, gestureStartY := -1 }
      if absX < kMaxDeviation ∧ vecY ≥ kNeededLength then
        -- swipe down
        { ret := true
          event := { event with type := EventType.EVENT_MAINMENU }
          state := { s1 with
            queuedInputEvent := { s1.queuedInputEvent with type := EventType.EVENT_INVALID }
            queuedEventTime := now + kQueuedInputEventDelay } }
      else if absX < kMaxDeviation ∧ -vecY ≥ kNeededLength then
        -- swipe up
        let s2 := { s1 with mouseClickAndDragEnabled := !s1.mouseClickAndDragEnabled }
        let s3 := if s2.mouseClickAndDragEnabled then { s2 with touchpadModeEnabled := false }
                  else s2
        { ret := false, event := event, state := s3 }
      else if absY < kMaxDeviation ∧ vecX ≥ kNeededLength then
        -- swipe right
        { ret := false, event := event
          state := { s1 with touchpadModeEnabled := !s1.touchpadModeEnabled } }
      else if absY < kMaxDeviation ∧ -vecX ≥ kNeededLength then
        -- swipe left
        { ret := false, event := event, state := s1 }
      else
        { ret := false, event := event, state := s1 }
    else
      { ret := false, event := event, state := s }

/-- The member `OSystem_iOS7::handleEvent_orientationChanged`. The surface
rebuild it triggers is an external collaborator. -/
def handleEvent_orientationChanged (s : State) (orientation : Int) : State :=
  let newOrientation : Option ScreenOrientation :=
    if orientation = 1 then some ScreenOrientation.kScreenOrientationPortrait
    else if orientation = 2 then some ScreenOrientation.kScreenOrientationFlippedPortrait
    else if orientation = 3 then some ScreenOrientation.kScreenOrientationLandscape
    else if orientation = 4 then some ScreenOrientation.kScreenOrientationFlippedLandscape
    else none
  match newOrientation with
  | none => s
  | some o => if s.screenOrientation ≠ o then { s with screenOrientation := o } else s

/-- The member `OSystem_iOS7::handleEvent_keyPressed`. -/
def handleEvent_keyPressed (s : State) (now : Int) (event : Event) (keyPressed : Int) :
    HandlerResult :=
  let ascii0 := keyPressed
  -- Map LF character to Return key/CR character
  let keyPressed1 := if keyPressed = 10 then KEYCODE_RETURN else keyPressed
  let ascii := if keyPressed = 10 then ASCII_RETURN else ascii0
  { ret := true
    event := { event with
      type := EventType.EVENT_KEYDOWN
      kbd := { keycode := keyPressed1, ascii := ascii, flags := 0 } }
    state := { s with
      queuedInputEvent := { s.queuedInputEvent with
        type := EventType.EVENT_KEYUP
        kbd := { keycode := keyPressed1, ascii := ascii, flags := 0 } }
      queuedEventTime := now + kQueuedInputEventDelay } }

/-- The member `OSystem_iOS7::handleEvent_swipe`. The message dialog shown by
the two mode toggles is an external collaborator. -/
def handleEvent_swipe (s : State) (now : Int) (event : Event) (direction touches : Int) :
    HandlerResult :=
  if touches = 3 then
    let keycode : Option Int :=
      if direction = kUIViewSwipeUp then some KEYCODE_UP
      else if direction = kUIViewSwipeDown then some KEYCODE_DOWN
      else if direction = kUIViewSwipeLeft then some KEYCODE_LEFT
      else if direction = kUIViewSwipeRight then some KEYCODE_RIGHT
      else none
    match keycode with
    | none => { ret := false, event := event, state := s }
    | some k =>
      { ret := true
        event := { event with
          type := EventType.EVENT_KEYDOWN
          kbd := { keycode := k, ascii := 0, flags := 0 } }
        state := { s with
          queuedInputEvent := { s.queuedInputEvent with
            type := EventType.EVENT_KEYUP
            kbd := { keycode := k, ascii := 0, flags := 0 } }
          queuedEventTime := now + kQueuedInputEventDelay } }
  else if touches = 2 then
    if direction = kUIViewSwipeUp then
      let s1 := { s with mouseClickAndDragEnabled := !s.mouseClickAndDragEnabled }
      let s2 := if s1.mouseClickAndDragEnabled then { s1 with touchpadModeEnabled := false }
                else s1
      { ret := false, event := event, state := s2 }
    else if direction = kUIViewSwipeDown then
      { ret := true
        event := { event with type := EventType.EVENT_MAINMENU }
        state := { s with
          queuedInputEvent := { s.queuedInputEvent with type := EventType.EVENT_INVALID }
          queuedEventTime := now + kQueuedInputEventDelay } }
    else if direction = kUIViewSwipeRight then
      { ret := false, event := event
        state := { s with touchpadModeEnabled := !s.touchpadModeEnabled } }
    else
      { ret := false, event := event, state := s }
  else
    { ret := false, event := event, state := s }

/-- The member `OSystem_iOS7::handleEvent_tap`. -/
def handleEvent_tap (s : State) (now : Int) (event : Event) (type touches : Int) :
    HandlerResult :=
  if touches = 1 then
    if type = kUIViewTapDouble then
      { ret := true
        event := { event with type := EventType.EVENT_RBUTTONDOWN }
        state := { s with
          queuedInputEvent := { s.queuedInputEvent with type := EventType.EVENT_RBUTTONUP }
          queuedEventTime := now + kQueuedInputEventDelay } }
    else
      { ret := false, event := event, state := s }
  else if touches = 2 then
    if type = kUIViewTapDouble then
      { ret := true
        event := { event with
          type := EventType.EVENT_KEYDOWN
          kbd := { keycode := KEYCODE_ESCAPE, ascii := ASCII_ESCAPE, flags := 0 } }
        state := { s with
          queuedInputEvent := { s.queuedInputEvent with
            type := EventType.EVENT_KEYUP
            kbd := { keycode := KEYCODE_ESCAPE, ascii := ASCII_ESCAPE, flags := 0 } }
          queuedEventTime := now + kQueuedInputEventDelay } }
    else
      { ret := false, event := event, state := s }
  else
    { ret := false, event := event, state := s }

/-! ## The poll function -/

/-- The first step of `pollEvent`: a registered timer callback whose deadline
is reached is invoked (an external effect) and rescheduled. -/
def timerStep (s : State) (curTime : Int) : State :=
  if s.timerCallback = true ∧ curTime ≥ s.timerCallbackNext then
    { s with timerCallbackNext := curTime + s.timerCallbackTimer }
  else s

/-- The result of `pollEvent` after a handler `h` ran on the fetched event:
`if (!handleEvent_...(...)) return false; break;` followed by `return true`. -/
def afterHandler (h : HandlerResult) : PollResult :=
  { ret := h.ret, event := h.event, state := h.state, fetched := true }

/-- The `switch (internalEvent.type)` of `pollEvent`, on a fetched raw event. -/
def dispatch (s : State) (now : Int) (event : Event) (internalEvent : InternalEvent) :
    PollResult :=
  match internalEvent.type with
  | InputEvent.kInputMouseDown =>
    afterHandler (handleEvent_mouseDown s now event internalEvent.value1 internalEvent.value2)
  | InputEvent.kInputMouseUp =>
    afterHandler (handleEvent_mouseUp s now event internalEvent.value1 internalEvent.value2)
  | InputEvent.kInputMouseDragged =>
    afterHandler (handleEvent_mouseDragged s now event internalEvent.value1 internalEvent.value2)
  | InputEvent.kInputOrientationChanged =>
    { ret := false, event := event
      state := handleEvent_orientationChanged s internalEvent.value1, fetched := true }
  | InputEvent.kInputApplicationSuspended =>
    { ret := false, event := event, state := s, fetched := true }
  | InputEvent.kInputApplicationResumed =>
    { ret := false, event := event, state := s, fetched := true }
  | InputEvent.kInputApplicationSaveState =>
    { ret := false, event := event, state := s, fetched := true }
  | InputEvent.kInputApplicationRestoreState =>
    { ret := false, event := event, state := s, fetched := true }
  | InputEvent.kInputApplicationClearState =>
    { ret := false, event := event, state := s, fetched := true }
  | InputEvent.kInputMouseSecondDragged =>
    afterHandler
      (handleEvent_mouseSecondDragged s now event internalEvent.value1 internalEvent.value2)
  | InputEvent.kInputMouseSecondDown =>
    afterHandler
      (handleEvent_secondMouseDown { s with secondaryTapped := true } now event
        internalEvent.value1 internalEvent.value2)
  | InputEvent.kInputMouseSecondUp =>
    afterHandler
      (handleEvent_secondMouseUp { s with secondaryTapped := false } now event
        internalEvent.value1 internalEvent.value2)
  | InputEvent.kInputKeyPressed =>
    afterHandler (handleEvent_keyPressed s now event internalEvent.value1)
  | InputEvent.kInputSwipe =>
    afterHandler (handleEvent_swipe s now event internalEvent.value1 internalEvent.value2)
  | InputEvent.kInputTap =>
    afterHandler (handleEvent_tap s now event internalEvent.value1 internalEvent.value2)
  | InputEvent.kInputMainMenu =>
    { ret := true
      event := { event with type := EventType.EVENT_MAINMENU }
      state := { s with
        queuedInputEvent := { s.queuedInputEvent with type := EventType.EVENT_INVALID }
        queuedEventTime := now + kQueuedInputEventDelay }
      fetched := true }
  | InputEvent.kInputJoystickAxisMotion =>
    { ret := true
      event := { event with
        type := EventType.EVENT_JOYAXIS_MOTION
        joystick := { event.joystick with
          axis := internalEvent.value1
          position := internalEvent.value2 } }
      state := s, fetched := true }
  | InputEvent.kInputJoystickButtonDown =>
    { ret := true
      event := { event with
        type := EventType.EVENT_JOYBUTTON_DOWN
        joystick := { event.joystick with button := internalEvent.value1 } }
      state := s, fetched := true }
  | InputEvent.kInputJoystickButtonUp =>
    -- no `break`: control falls through into `case kInputChanged`
    let event1 := { event with
      type := EventType.EVENT_JOYBUTTON_UP
      joystick := { event.joystick with button := internalEvent.value1 } }
    { ret := true
      event := { event1 with type := EventType.EVENT_INPUT_CHANGED }
      state := { s with
        queuedInputEvent := { s.queuedInputEvent with type := EventType.EVENT_INVALID }
        queuedEventTime := now + kQueuedInputEventDelay }
      fetched := true }
  | InputEvent.kInputChanged =>
    { ret := true
      event := { event with type := EventType.EVENT_INPUT_CHANGED }
      state := { s with
        queuedInputEvent := { s.queuedInputEvent with type := EventType.EVENT_INVALID }
        queuedEventTime := now + kQueuedInputEventDelay }
      fetched := true }
  | InputEvent.kInputOther _ =>
    -- `default: break;` and then `return true`
    { ret := true, event := event, state := s, fetched := true }

/-- The member `OSystem_iOS7::pollEvent`. -/
def pollEvent (s : State) (now : Int) (event : Event) (raw : Option InternalEvent) :
    PollResult :=
  let curTime := now
  let s1 := timerStep s curTime
  if s1.queuedInputEvent.type ≠ EventType.EVENT_INVALID ∧ curTime ≥ s1.queuedEventTime then
    { ret := true
      event := s1.queuedInputEvent
      state := { s1 with
        queuedInputEvent := { s1.queuedInputEvent with type := EventType.EVENT_INVALID } }
      fetched := false }
  else
    match raw with
    | some internalEvent => dispatch s1 now event internalEvent
    | none => { ret := false, event := event, state := s1, fetched := true }

/-! ## Sequences of polls -/

/-- One call of `pollEvent`: the clock value, the event buffer of the caller
and what the platform bridge would hand over. -/
structure PollCall where
  now : Int
  event : Event
  raw : Option InternalEvent
  deriving DecidableEq, Repr

/-- The results of a sequence of polls, each starting in the state the previous
one left. -/
def runPolls (s : State) : List PollCall → List PollResult
  | [] => []
  | c :: cs =>
    let r := pollEvent s c.now c.event c.raw
    r :: runPolls r.state cs

/-- The state after a sequence of polls. -/
def finalState (s : State) : List PollCall → State
  | [] => s
  | c :: cs => finalState (pollEvent s c.now c.event c.raw).state cs

/-- The portable events a sequence of results delivered to the caller: the
buffers of the polls that returned `true`, in order. -/
def emitted (rs : List PollResult) : List Event :=
  (rs.filter (fun r => r.ret)).map (fun r => r.event)

/-- Modelled from the spec: the initial values of the members, set by the
constructor of `OSystem_iOS7` (not among the sources): no deferred event, deadline 0, anchor "none" (both coordinates -1), both
flags of the secondary finger and of click-and-drag clear. The remaining members
are arguments. -/
def initialState (touchpad : Bool) (orientation : ScreenOrientation) (vc : VideoContext) :
    State :=
  { timerCallback := false
    timerCallbackNext := 0
    timerCallbackTimer := 0
    queuedInputEvent :=
      { type := EventType.EVENT_INVALID
        kbd := { keycode := KEYCODE_INVALID, ascii := 0, flags := 0 }
        mouse := { x := 0, y := 0 }
        joystick := { axis := 0, position := 0, button := 0 } }
    queuedEventTime := 0
    lastMouseDown := 0
    lastMouseTap := 0
    lastSecondaryDown := 0
    lastSecondaryTap := 0
    secondaryTapped := false
    touchpadModeEnabled := touchpad
    mouseClickAndDragEnabled := false
    lastPadX := 0
    lastPadY := 0
    lastDragPosX := 0
    lastDragPosY := 0
    gestureStartX := -1
    gestureStartY := -1
    screenOrientation := orientation
    videoContext := vc }

/-- An event buffer as a caller hands it in: a fresh `Common::Event`, whose
type is `EVENT_INVALID`. -/
def noEvent : Event :=
  { type := EventType.EVENT_INVALID
    kbd := { keycode := KEYCODE_INVALID, ascii := 0, flags := 0 }
    mouse := { x := 0, y := 0 }
    joystick := { axis := 0, position := 0, button := 0 } }

/-- A video context used in examples: cursor at (10, 20), no overlay, a
640 x 480 overlay surface and a 320 x 200 game screen. -/
def exampleVideo : VideoContext :=
  { mouseX := 10, mouseY := 20, overlayVisible := false
    overlayWidth := 640, overlayHeight := 480, screenWidth := 320, screenHeight := 200 }

/-- The initial state used in examples: touchpad mode off, portrait. -/
def exampleState : State :=
  initialState false ScreenOrientation.kScreenOrientationPortrait exampleVideo

/-- The example state with a key-up of Escape in the deferred slot, due at 50. -/
def examplePending : State :=
  { exampleState with
    queuedInputEvent :=
      { noEvent with
        type := EventType.EVENT_KEYUP
        kbd := { keycode := KEYCODE_ESCAPE, ascii := ASCII_ESCAPE, flags := 0 } }
    queuedEventTime := 50 }

/-- The example state in touchpad mode, with last pad sample (100, 100). -/
def exampleTouchpad : State :=
  { exampleState with touchpadModeEnabled := true, lastPadX := 100, lastPadY := 100 }

/-- The example state after a secondary-finger down at (0, 0), with the key-up
of Escape still in the deferred slot: the anchor is (0, 0). -/
def exampleAnchored : State :=
  { examplePending with
    secondaryTapped := true, lastSecondaryDown := 0, gestureStartX := 0, gestureStartY := 0 }

/-- A poll with no raw input waiting. -/
def idleCall (c : Int × Event) : PollCall :=
  { now := c.1, event := c.2, raw := none }

/-- A slow polling schedule: the first poll is at `earliest` or later and each
further poll is at least `kQueuedInputEventDelay` (50 ms) after the poll before
it. -/
def slowFrom (earliest : Int) : List PollCall → Bool
  | [] => true
  | c :: cs => decide (earliest ≤ c.now) && slowFrom (c.now + kQueuedInputEventDelay) cs

/-- Successive calls of `handleEvent_mouseSecondDragged`, one for each further
drag sample (clock value, event buffer, position), each starting in the state
the previous one left. -/
def runSecondDragged (s : State) : List (Int × Event × Int × Int) → List HandlerResult
  | [] => []
  | c :: cs =>
    let r := handleEvent_mouseSecondDragged s c.1 c.2.1 c.2.2.1 c.2.2.2
    r :: runSecondDragged r.state cs

/-- The example state after a reported 2-touch swipe up at 900, which turns
click-and-drag mode on, a secondary-finger down at 1000 and an idle poll at
1010 that delivers the deferred right-button-down. -/
def exampleRightDown : State :=
  finalState exampleState
    [⟨900, noEvent, some ⟨InputEvent.kInputSwipe, kUIViewSwipeUp, 2⟩⟩,
     ⟨1000, noEvent, some ⟨InputEvent.kInputMouseSecondDown, 5, 7⟩⟩,
     ⟨1010, noEvent, none⟩]

/-- The up events that the translator defers: left-button-up, right-button-up
and key-up. -/
def isUpEvent : EventType → Bool
  | EventType.EVENT_LBUTTONUP => true
  | EventType.EVENT_RBUTTONUP => true
  | EventType.EVENT_KEYUP => true
  | _ => false

theorem timerStep_queuedInputEvent (s : State) (t : Int) :
    (timerStep s t).queuedInputEvent = s.queuedInputEvent := by
  unfold timerStep; split <;> rfl

theorem timerStep_queuedEventTime (s : State) (t : Int) :
    (timerStep s t).queuedEventTime = s.queuedEventTime := by
  unfold timerStep; split <;> rfl

theorem timerStep_eq (s : State) (t : Int) :
    timerStep s t = { s with timerCallbackNext := (timerStep s t).timerCallbackNext } := by
  unfold timerStep; split <;> rfl

/-- A poll whose deferred slot is valid and due delivers the slot. -/
theorem pollEvent_due (s : State) (now : Int) (event : Event) (raw : Option InternalEvent)
    (hv : s.queuedInputEvent.type ≠ EventType.EVENT_INVALID) (hd : s.queuedEventTime ≤ now) :
    pollEvent s now event raw =
      { ret := true
        event := s.queuedInputEvent
        state := { timerStep s now with
          queuedInputEvent := { s.queuedInputEvent with type := EventType.EVENT_INVALID } }
        fetched := false } := by
  unfold pollEvent
  simp only [timerStep_queuedInputEvent, timerStep_queuedEventTime]
  rw [if_pos ⟨hv, hd⟩]

/-- A poll whose deferred slot is empty or not yet due goes on to the raw
event source. -/
theorem pollEvent_not_due (s : State) (now : Int) (event : Event) (raw : Option InternalEvent)
    (h : s.queuedInputEvent.type = EventType.EVENT_INVALID ∨ now < s.queuedEventTime) :
    pollEvent s now event raw =
      match raw with
      | some internalEvent => dispatch (timerStep s now) now event internalEvent
      | none => { ret := false, event := event, state := timerStep s now, fetched := true } := by
  unfold pollEvent
  simp only [timerStep_queuedInputEvent, timerStep_queuedEventTime]
  rw [if_neg]
  rintro ⟨hv, hd⟩
  rcases h with h | h
  · exact hv h
  · omega

/-- Polls with no raw input, all before the deadline of the deferred slot,
return nothing and keep the slot and its deadline. -/
theorem idle_polls_before_deadline (idle : List (Int × Event)) (s : State)
    (h : ∀ c ∈ idle, c.1 < s.queuedEventTime) :
    (∀ r ∈ runPolls s (idle.map idleCall), r.ret = false) ∧
    (finalState s (idle.map idleCall)).queuedInputEvent = s.queuedInputEvent ∧
    (finalState s (idle.map idleCall)).queuedEventTime = s.queuedEventTime := by
  induction idle generalizing s with
  | nil => simp [runPolls, finalState]
  | cons c cs ih =>
    have hc : c.1 < s.queuedEventTime := h c (List.mem_cons_self _ _)
    have hp := pollEvent_not_due s c.1 c.2 none (Or.inr hc)
    simp only at hp
    have hq : (timerStep s c.1).queuedEventTime = s.queuedEventTime :=
      timerStep_queuedEventTime s c.1
    have ih2 := ih (timerStep s c.1) (by
      intro d hd
      rw [hq]
      exact h d (List.mem_cons_of_mem _ hd))
    simp only [List.map_cons, runPolls, finalState, idleCall, hp, List.mem_cons,
      forall_eq_or_imp, true_and]
    simp only [idleCall] at ih2
    refine ⟨ih2.1, ?_, ?_⟩
    · rw [ih2.2.1, timerStep_queuedInputEvent]
    · rw [ih2.2.2, hq]

theorem runPolls_append (cs ds : List PollCall) (s : State) :
    runPolls s (cs ++ ds) = runPolls s cs ++ runPolls (finalState s cs) ds := by
  induction cs generalizing s with
  | nil => rfl
  | cons c cs ih => simp [runPolls, finalState, ih]

theorem finalState_append (cs ds : List PollCall) (s : State) :
    finalState s (cs ++ ds) = finalState (finalState s cs) ds := by
  induction cs generalizing s with
  | nil => rfl
  | cons c cs ih => simp [finalState, ih]

theorem emitted_append (rs qs : List PollResult) :
    emitted (rs ++ qs) = emitted rs ++ emitted qs := by
  simp [emitted]

theorem emitted_eq_nil (rs : List PollResult) (h : ∀ r ∈ rs, r.ret = false) :
    emitted rs = [] := by
  simp only [emitted, List.map_eq_nil_iff, List.filter_eq_nil_iff]
  intro r hr
  simp [h r hr]

/-! ## Primary finger: tap as click -/

/-- The primary-finger down poll outside click-and-drag mode, with an empty
deferred slot: no event, the down time is recorded. -/
theorem pollEvent_mouseDown_plain (s : State) (t0 : Int) (e0 : Event) (x0 y0 : Int)
    (hcd : s.mouseClickAndDragEnabled = false)
    (hq : s.queuedInputEvent.type = EventType.EVENT_INVALID ∨ t0 < s.queuedEventTime) :
    pollEvent s t0 e0 (some ⟨InputEvent.kInputMouseDown, x0, y0⟩) =
      { ret := false
        event := e0
        state :=
          { (if s.touchpadModeEnabled then
              { timerStep s t0 with secondaryTapped := false, lastPadX := x0, lastPadY := y0 }
             else warpMouse { timerStep s t0 with secondaryTapped := false } x0 y0) with
            lastMouseDown := t0 }
        fetched := true } := by
  rw [pollEvent_not_due s t0 e0 _ hq]
  have h1 : (timerStep s t0).mouseClickAndDragEnabled = false := by
    rw [timerStep_eq]; exact hcd
  have h2 : (timerStep s t0).touchpadModeEnabled = s.touchpadModeEnabled := by
    rw [timerStep_eq]
  simp only [dispatch, afterHandler, handleEvent_mouseDown, h2]
  cases htp : s.touchpadModeEnabled <;> simp [warpMouse, h1]

/-- The state a primary-finger down poll leaves outside click-and-drag mode. -/
theorem mouseDown_plain_state (s : State) (t0 : Int) (e0 : Event) (x0 y0 : Int)
    (hcd : s.mouseClickAndDragEnabled = false)
    (hq : s.queuedInputEvent.type = EventType.EVENT_INVALID ∨ t0 < s.queuedEventTime) :
    let s1 := (pollEvent s t0 e0 (some ⟨InputEvent.kInputMouseDown, x0, y0⟩)).state
    s1.mouseClickAndDragEnabled = false ∧ s1.secondaryTapped = false ∧
    s1.lastMouseDown = t0 ∧ s1.queuedInputEvent = s.queuedInputEvent ∧
    s1.queuedEventTime = s.queuedEventTime ∧
    (s.touchpadModeEnabled = false → s1.videoContext.mouseX = x0 ∧ s1.videoContext.mouseY = y0) ∧
    (s.touchpadModeEnabled = true → s1.videoContext = s.videoContext) := by
  intro s1
  have hs1 : s1 = _ := congrArg PollResult.state (pollEvent_mouseDown_plain s t0 e0 x0 y0 hcd hq)
  have h1 : (timerStep s t0).mouseClickAndDragEnabled = false := by
    rw [timerStep_eq]; exact hcd
  have h3 : (timerStep s t0).videoContext = s.videoContext := by
    rw [timerStep_eq]
  rw [hs1]
  cases htp : s.touchpadModeEnabled <;>
    simp [warpMouse, h1, h3, timerStep_queuedInputEvent, timerStep_queuedEventTime]

/-- The primary-finger up poll in a state with the secondary flag clear,
click-and-drag off and an empty deferred slot, less than 250 ms after the
recorded down: left-button-down now, left-button-up deferred by 50 ms. -/
theorem pollEvent_mouseUp_tap (s : State) (t1 : Int) (e1 : Event) (x1 y1 : Int)
    (hcd : s.mouseClickAndDragEnabled = false) (hsec : s.secondaryTapped = false)
    (hq : s.queuedInputEvent.type = EventType.EVENT_INVALID ∨ t1 < s.queuedEventTime)
    (ht : t1 - s.lastMouseDown < 250) :
    pollEvent s t1 e1 (some ⟨InputEvent.kInputMouseUp, x1, y1⟩) =
      { ret := true
        event := { e1 with
          type := EventType.EVENT_LBUTTONDOWN
          mouse := { x := s.videoContext.mouseX, y := s.videoContext.mouseY } }
        state := { timerStep s t1 with
          queuedInputEvent := { s.queuedInputEvent with
            type := EventType.EVENT_LBUTTONUP
            mouse := { x := s.videoContext.mouseX, y := s.videoContext.mouseY } }
          lastMouseTap := t1
          queuedEventTime := t1 + 50 }
        fetched := true } := by
  rw [pollEvent_not_due s t1 e1 _ hq]
  have h1 : (timerStep s t1).mouseClickAndDragEnabled = false := by
    rw [timerStep_eq]; exact hcd
  have h2 : (timerStep s t1).secondaryTapped = false := by
    rw [timerStep_eq]; exact hsec
  have h3 : (timerStep s t1).videoContext = s.videoContext := by
    rw [timerStep_eq]
  have h4 : (timerStep s t1).lastMouseDown = s.lastMouseDown := by
    rw [timerStep_eq]
  simp [dispatch, afterHandler, handleEvent_mouseUp, h1, h2, h3, h4, ht,
    timerStep_queuedInputEvent, kQueuedInputEventDelay]

/-- C1 (tap as click). In a state with click-and-drag off, the secondary
flag clear and the deferred slot empty, a primary-finger down polled at `t0`
and the matching up polled at `t1` with `t1 - t0 < 250` behave as follows: the
down poll returns no event; the up poll returns left-button-down at the
current cursor position (the touch position when touchpad mode is off) and
puts left-button-up at the same position in the deferred slot with deadline
`t1 + 50`; every poll with no raw input at a time before `t1 + 50` returns no
event; the first poll at a time `t ≥ t1 + 50` returns that left-button-up,
without asking for raw input, and leaves the slot empty. The whole sequence
delivers exactly two portable events, button-down then button-up. The
secondary flag needs no assumption: the down handler clears it. -/
theorem tap_as_click (s : State)
    (hcd : s.mouseClickAndDragEnabled = false)
    (hq : s.queuedInputEvent.type = EventType.EVENT_INVALID)
    (t0 t1 : Int) (ht : t1 - t0 < 250) (x0 y0 x1 y1 : Int) (e0 e1 : Event)
    (idle : List (Int × Event)) (hidle : ∀ c ∈ idle, c.1 < t1 + 50)
    (t : Int) (hlate : t1 + 50 ≤ t) (e : Event) (raw : Option InternalEvent) :
    let down : PollCall := ⟨t0, e0, some ⟨InputEvent.kInputMouseDown, x0, y0⟩⟩
    let up : PollCall := ⟨t1, e1, some ⟨InputEvent.kInputMouseUp, x1, y1⟩⟩
    let r0 := pollEvent s t0 e0 down.raw
    let r1 := pollEvent r0.state t1 e1 up.raw
    let cursor : Point := ⟨r0.state.videoContext.mouseX, r0.state.videoContext.mouseY⟩
    let buttonDown : Event := { e1 with type := EventType.EVENT_LBUTTONDOWN, mouse := cursor }
    let buttonUp : Event :=
      { s.queuedInputEvent with type := EventType.EVENT_LBUTTONUP, mouse := cursor }
    let s2 := finalState r1.state (idle.map idleCall)
    let r3 := pollEvent s2 t e raw
    r0.ret = false ∧
    (s.touchpadModeEnabled = false → cursor = ⟨x0, y0⟩) ∧
    r1.ret = true ∧ r1.event = buttonDown ∧
    r1.state.queuedInputEvent = buttonUp ∧ r1.state.queuedEventTime = t1 + 50 ∧
    (∀ r ∈ runPolls r1.state (idle.map idleCall), r.ret = false) ∧
    r3.ret = true ∧ r3.event = buttonUp ∧ r3.fetched = false ∧
    r3.state.queuedInputEvent.type = EventType.EVENT_INVALID ∧
    emitted (runPolls s (down :: up :: (idle.map idleCall ++ [⟨t, e, raw⟩]))) =
      [buttonDown, buttonUp] := by
  intro down up r0 r1 cursor buttonDown buttonUp s2 r3
  have hr0 : r0 = _ := pollEvent_mouseDown_plain s t0 e0 x0 y0 hcd (Or.inl hq)
  obtain ⟨a1, a2, a3, a4, a5, a6, -⟩ := mouseDown_plain_state s t0 e0 x0 y0 hcd (Or.inl hq)
  have hr0ret : r0.ret = false := by rw [hr0]
  have hr1 : r1 = _ :=
    pollEvent_mouseUp_tap r0.state t1 e1 x1 y1 a1 a2 (Or.inl (by rw [a4]; exact hq))
      (by rw [a3]; exact ht)
  have hr1ret : r1.ret = true := by rw [hr1]
  have hr1ev : r1.event = buttonDown := by rw [hr1]
  have a4r : r0.state.queuedInputEvent = s.queuedInputEvent := a4
  have hr1q : r1.state.queuedInputEvent = buttonUp := by rw [hr1]; simp only [a4r]
  have hr1t : r1.state.queuedEventTime = t1 + 50 := by rw [hr1]
  obtain ⟨i1, i2, i3⟩ := idle_polls_before_deadline idle r1.state (by rw [hr1t]; exact hidle)
  have hvalid : s2.queuedInputEvent.type ≠ EventType.EVENT_INVALID := by
    show (finalState r1.state (idle.map idleCall)).queuedInputEvent.type ≠ _
    rw [i2, hr1q]; simp [buttonUp]
  have hdue : s2.queuedEventTime ≤ t := by
    show (finalState r1.state (idle.map idleCall)).queuedEventTime ≤ t
    rw [i3, hr1t]; exact hlate
  have hr3 : r3 = _ := pollEvent_due s2 t e raw hvalid hdue
  have hs2q : s2.queuedInputEvent = buttonUp := by
    show (finalState r1.state (idle.map idleCall)).queuedInputEvent = _
    rw [i2, hr1q]
  have hr3ret : r3.ret = true := by rw [hr3]
  have hr3ev : r3.event = buttonUp := by rw [hr3]; exact hs2q
  refine ⟨hr0ret, ?_, hr1ret, hr1ev, hr1q, hr1t, i1, hr3ret, hr3ev, by rw [hr3], by rw [hr3], ?_⟩
  · intro htp
    obtain ⟨b1, b2⟩ := a6 htp
    show Point.mk r0.state.videoContext.mouseX r0.state.videoContext.mouseY = _
    rw [b1, b2]
  · have hsplit : runPolls s (down :: up :: (idle.map idleCall ++ [⟨t, e, raw⟩])) =
        r0 :: r1 :: (runPolls r1.state (idle.map idleCall) ++ [r3]) := by
      simp only [runPolls, runPolls_append]
    rw [hsplit]
    have hnil := emitted_eq_nil _ i1
    have e1 : emitted (r0 :: r1 :: (runPolls r1.state (idle.map idleCall) ++ [r3])) =
        emitted [r0, r1] ++ (emitted (runPolls r1.state (idle.map idleCall)) ++ emitted [r3]) := by
      rw [← emitted_append, ← emitted_append]; rfl
    rw [e1, hnil]
    simp [emitted, hr0ret, hr1ret, hr3ret, hr1ev, hr3ev]

/-- A poll asks the raw event source exactly when no deferred event is due. -/
theorem fetched_iff (s : State) (now : Int) (event : Event) (raw : Option InternalEvent) :
    (pollEvent s now event raw).fetched = true ↔
      (s.queuedInputEvent.type = EventType.EVENT_INVALID ∨ now < s.queuedEventTime) := by
  constructor
  · intro h
    by_contra hc
    push_neg at hc
    rw [pollEvent_due s now event raw hc.1 hc.2] at h
    simp at h
  · intro h
    rw [pollEvent_not_due s now event raw h]
    cases raw with
    | none => rfl
    | some ie =>
      simp only [dispatch]
      split <;> rfl

/-- The primary-finger up poll in a state with the secondary flag clear and
click-and-drag off, 250 ms or more after the recorded down: nothing happens. -/
theorem pollEvent_mouseUp_timeout (s : State) (t1 : Int) (e1 : Event) (x1 y1 : Int)
    (hcd : s.mouseClickAndDragEnabled = false) (hsec : s.secondaryTapped = false)
    (hq : s.queuedInputEvent.type = EventType.EVENT_INVALID ∨ t1 < s.queuedEventTime)
    (ht : 250 ≤ t1 - s.lastMouseDown) :
    pollEvent s t1 e1 (some ⟨InputEvent.kInputMouseUp, x1, y1⟩) =
      { ret := false, event := e1, state := timerStep s t1, fetched := true } := by
  rw [pollEvent_not_due s t1 e1 _ hq]
  have h1 : (timerStep s t1).mouseClickAndDragEnabled = false := by
    rw [timerStep_eq]; exact hcd
  have h2 : (timerStep s t1).secondaryTapped = false := by
    rw [timerStep_eq]; exact hsec
  have h4 : (timerStep s t1).lastMouseDown = s.lastMouseDown := by
    rw [timerStep_eq]
  have ht2 : ¬ (t1 - s.lastMouseDown < 250) := by omega
  simp [dispatch, afterHandler, handleEvent_mouseUp, h1, h2, h4, ht2]

/-- C2 (tap timeout). In a state with click-and-drag off, when a
primary-finger down is polled at `t0` and the primary-finger up is polled at
`t1` (both polls reach the raw event) with more than 250 ms between them,
neither poll returns an event, and the up poll leaves the deferred slot and
its deadline as they were. The secondary flag needs no assumption: the down
handler clears it. The same holds at exactly 250 ms
(`pollEvent_mouseUp_timeout`). -/
theorem tap_timeout (s : State) (hcd : s.mouseClickAndDragEnabled = false)
    (t0 t1 : Int) (ht : 250 < t1 - t0) (x0 y0 x1 y1 : Int) (e0 e1 : Event)
    (hdown : (pollEvent s t0 e0 (some ⟨InputEvent.kInputMouseDown, x0, y0⟩)).fetched = true)
    (hup : (pollEvent (pollEvent s t0 e0 (some ⟨InputEvent.kInputMouseDown, x0, y0⟩)).state
      t1 e1 (some ⟨InputEvent.kInputMouseUp, x1, y1⟩)).fetched = true) :
    let down : PollCall := ⟨t0, e0, some ⟨InputEvent.kInputMouseDown, x0, y0⟩⟩
    let up : PollCall := ⟨t1, e1, some ⟨InputEvent.kInputMouseUp, x1, y1⟩⟩
    let r0 := pollEvent s t0 e0 down.raw
    let r1 := pollEvent r0.state t1 e1 up.raw
    r0.ret = false ∧ r1.ret = false ∧
    r1.state.queuedInputEvent = r0.state.queuedInputEvent ∧
    r1.state.queuedEventTime = r0.state.queuedEventTime ∧
    r1.state.queuedInputEvent = s.queuedInputEvent ∧
    r1.state.queuedEventTime = s.queuedEventTime ∧
    emitted (runPolls s [down, up]) = [] := by
  intro down up r0 r1
  have hq0 := (fetched_iff s t0 e0 _).1 hdown
  have hq1 := (fetched_iff _ t1 e1 _).1 hup
  have hr0 : r0 = _ := pollEvent_mouseDown_plain s t0 e0 x0 y0 hcd hq0
  obtain ⟨a1, a2, a3, a4, a5, -, -⟩ := mouseDown_plain_state s t0 e0 x0 y0 hcd hq0
  have hr1 : r1 = _ :=
    pollEvent_mouseUp_timeout r0.state t1 e1 x1 y1 a1 a2 hq1 (by rw [a3]; omega)
  have hr0ret : r0.ret = false := by rw [hr0]
  have hr1ret : r1.ret = false := by rw [hr1]
  have b1 : r1.state.queuedInputEvent = r0.state.queuedInputEvent := by
    rw [hr1]; exact timerStep_queuedInputEvent _ _
  have b2 : r1.state.queuedEventTime = r0.state.queuedEventTime := by
    rw [hr1]; exact timerStep_queuedEventTime _ _
  refine ⟨hr0ret, hr1ret, b1, b2, b1.trans a4, b2.trans a5, ?_⟩
  apply emitted_eq_nil
  intro r hr
  have hrs : runPolls s [down, up] = [r0, r1] := rfl
  rw [hrs] at hr
  simp only [List.mem_cons, List.mem_singleton, List.not_mem_nil, or_false] at hr
  rcases hr with h | h <;> rw [h] <;> assumption

/-- Instance of `tap_as_click`: from the initial state, down at 1000 and up at
1100 on (5, 7), an idle poll at 1120 and a poll at 1150 deliver left-button-down
and then left-button-up, both at (5, 7). -/
theorem tap_as_click_witness :
    emitted (runPolls exampleState
      [⟨1000, noEvent, some ⟨InputEvent.kInputMouseDown, 5, 7⟩⟩,
       ⟨1100, noEvent, some ⟨InputEvent.kInputMouseUp, 5, 7⟩⟩,
       ⟨1120, noEvent, none⟩,
       ⟨1150, noEvent, none⟩]) =
      [{ noEvent with type := EventType.EVENT_LBUTTONDOWN, mouse := ⟨5, 7⟩ },
       { noEvent with type := EventType.EVENT_LBUTTONUP, mouse := ⟨5, 7⟩ }] :=
  (tap_as_click exampleState rfl rfl 1000 1100 (by decide) 5 7 5 7 noEvent noEvent
    [(1120, noEvent)] (by decide) 1150 (by decide) noEvent none).2.2.2.2.2.2.2.2.2.2.2

/-- Instance of `tap_timeout`: from the initial state, down at 1000 and up at
1300 deliver nothing. -/
theorem tap_timeout_witness :
    emitted (runPolls exampleState
      [⟨1000, noEvent, some ⟨InputEvent.kInputMouseDown, 5, 7⟩⟩,
       ⟨1300, noEvent, some ⟨InputEvent.kInputMouseUp, 5, 7⟩⟩]) = [] :=
  (tap_timeout exampleState rfl 1000 1300 (by decide) 5 7 5 7 noEvent noEvent
    (by decide) (by decide)).2.2.2.2.2.2

/-! ## Priority of the deferred slot -/

/-- What `pollEvent` returns on a fetched raw event (result and buffer) does
not depend on the content of the deferred slot: no handler reads the slot. -/
theorem dispatch_slot_independent (s : State) (q : Event) (now : Int) (event : Event)
    (ie : InternalEvent) :
    (dispatch { s with queuedInputEvent := q } now event ie).ret = (dispatch s now event ie).ret ∧
    (dispatch { s with queuedInputEvent := q } now event ie).event =
      (dispatch s now event ie).event := by
  obtain ⟨ty, v1, v2⟩ := ie
  cases ty <;>
    simp only [dispatch, afterHandler, handleEvent_mouseDown, handleEvent_mouseUp,
      handleEvent_mouseDragged, handleEvent_mouseSecondDragged, handleEvent_secondMouseDown,
      handleEvent_secondMouseUp, handleEvent_keyPressed, handleEvent_swipe, handleEvent_tap,
      warpMouse, and_self] <;>
    (try split_ifs) <;> (try simp) <;> (try split_ifs) <;> (try simp)

theorem timerStep_with_queuedInputEvent (s : State) (q : Event) (t : Int) :
    timerStep { s with queuedInputEvent := q } t =
      { timerStep s t with queuedInputEvent := q } := by
  unfold timerStep; split <;> rfl

/-- C3 (deferred-event priority). When the deferred slot holds a valid event:
if its deadline is reached (`deadline ≤ now`), the poll returns exactly that
event, does not ask for raw input (so none is consumed, whatever is waiting),
and the state afterwards is the state before with the slot type set to
invalid (and the timer callback rescheduled by the first step of the poll):
timestamps, flags, anchor and positions are untouched. If the deadline is not
reached (`now < deadline`), the slot is not delivered: the poll goes on to the
raw event source, returns no event and keeps the slot when nothing is
waiting, and what it returns is the same whatever the slot holds. -/
theorem deferred_event_priority (s : State) (now : Int) (event : Event)
    (raw : Option InternalEvent)
    (hv : s.queuedInputEvent.type ≠ EventType.EVENT_INVALID) :
    (s.queuedEventTime ≤ now →
      pollEvent s now event raw =
        { ret := true
          event := s.queuedInputEvent
          state := { s with
            timerCallbackNext := (timerStep s now).timerCallbackNext
            queuedInputEvent := { s.queuedInputEvent with type := EventType.EVENT_INVALID } }
          fetched := false }) ∧
    (now < s.queuedEventTime →
      (pollEvent s now event raw).fetched = true ∧
      (raw = none →
        (pollEvent s now event raw).ret = false ∧
        (pollEvent s now event raw).state.queuedInputEvent = s.queuedInputEvent ∧
        (pollEvent s now event raw).state.queuedEventTime = s.queuedEventTime) ∧
      (∀ q : Event,
        (pollEvent { s with queuedInputEvent := q } now event raw).ret =
          (pollEvent s now event raw).ret ∧
        (pollEvent { s with queuedInputEvent := q } now event raw).event =
          (pollEvent s now event raw).event)) := by
  constructor
  · intro hd
    rw [pollEvent_due s now event raw hv hd]
    congr 1
    rw [timerStep_eq s now]
  · intro hlt
    refine ⟨(fetched_iff s now event raw).2 (Or.inr hlt), ?_, ?_⟩
    · intro hnone
      subst hnone
      rw [pollEvent_not_due s now event none (Or.inr hlt)]
      exact ⟨rfl, timerStep_queuedInputEvent s now, timerStep_queuedEventTime s now⟩
    · intro q
      rw [pollEvent_not_due s now event raw (Or.inr hlt),
        pollEvent_not_due { s with queuedInputEvent := q } now event raw (Or.inr hlt)]
      cases raw with
      | none => exact ⟨rfl, rfl⟩
      | some ie =>
        simp only [timerStep_with_queuedInputEvent]
        exact dispatch_slot_independent (timerStep s now) q now event ie

/-- Instance of `deferred_event_priority`: with key-up Escape pending for time
50, a poll at 60 returns it although a primary-finger down is waiting, and a
poll at 40 with nothing waiting returns no event. -/
theorem deferred_event_priority_witness :
    (pollEvent examplePending 60 noEvent (some ⟨InputEvent.kInputMouseDown, 5, 7⟩) =
      { ret := true
        event := examplePending.queuedInputEvent
        state := { examplePending with
          queuedInputEvent :=
            { examplePending.queuedInputEvent with type := EventType.EVENT_INVALID } }
        fetched := false }) ∧
    (pollEvent examplePending 40 noEvent none).ret = false :=
  ⟨(deferred_event_priority examplePending 60 noEvent
      (some ⟨InputEvent.kInputMouseDown, 5, 7⟩) (by decide)).1 (by decide),
   ((deferred_event_priority examplePending 40 noEvent none (by decide)).2 (by decide)).2.1
      rfl |>.1⟩

/-! ## Slow polling -/

/-- A handler either keeps the deadline of the deferred slot or sets it to
`now + 50`. -/
theorem dispatch_queuedEventTime (s : State) (now : Int) (event : Event) (ie : InternalEvent) :
    (dispatch s now event ie).state.queuedEventTime = s.queuedEventTime ∨
    (dispatch s now event ie).state.queuedEventTime = now + 50 := by
  obtain ⟨ty, v1, v2⟩ := ie
  cases ty <;>
    simp only [dispatch, afterHandler, handleEvent_mouseDown, handleEvent_mouseUp,
      handleEvent_mouseDragged, handleEvent_mouseSecondDragged, handleEvent_secondMouseDown,
      handleEvent_secondMouseUp, handleEvent_keyPressed, handleEvent_swipe, handleEvent_tap,
      handleEvent_orientationChanged, warpMouse, kQueuedInputEventDelay] <;>
    (try split_ifs) <;> (try simp) <;> (try split_ifs) <;> (try simp)

theorem pollEvent_queuedEventTime (s : State) (now : Int) (event : Event)
    (raw : Option InternalEvent) :
    (pollEvent s now event raw).state.queuedEventTime = s.queuedEventTime ∨
    (pollEvent s now event raw).state.queuedEventTime = now + 50 := by
  by_cases h : s.queuedInputEvent.type = EventType.EVENT_INVALID ∨ now < s.queuedEventTime
  · rw [pollEvent_not_due s now event raw h]
    cases raw with
    | none => exact Or.inl (timerStep_queuedEventTime s now)
    | some ie =>
      have := dispatch_queuedEventTime (timerStep s now) now event ie
      rw [timerStep_queuedEventTime] at this
      exact this
  · push_neg at h
    rw [pollEvent_due s now event raw h.1 h.2]
    exact Or.inl (timerStep_queuedEventTime s now)

/-- Under a slow schedule the deadline of the slot never lies after the time
of the next poll. -/
theorem deadline_reached (calls : List PollCall) (s : State) (d : Int)
    (hd : s.queuedEventTime ≤ d) (hs : slowFrom d calls = true)
    (pre : List PollCall) (c : PollCall) (post : List PollCall)
    (hsplit : calls = pre ++ c :: post) :
    (finalState s pre).queuedEventTime ≤ c.now := by
  induction pre generalizing calls s d with
  | nil =>
    subst hsplit
    simp only [List.nil_append, slowFrom, Bool.and_eq_true, decide_eq_true_eq] at hs
    simp only [finalState]
    omega
  | cons p ps ih =>
    subst hsplit
    simp only [List.cons_append, slowFrom, Bool.and_eq_true, decide_eq_true_eq] at hs
    simp only [finalState]
    refine ih (ps ++ c :: post) _ (p.now + kQueuedInputEventDelay) ?_ hs.2 rfl
    have := pollEvent_queuedEventTime s p.now p.event p.raw
    simp only [kQueuedInputEventDelay]
    omega

/-- C4 (no deferred-event loss under slow polling). Start with deadline 0 and
poll at times that begin at 0 or later and are at least 50 ms apart, with any
raw input at each poll. Then at every poll of the sequence: a valid deferred
slot is delivered by that very poll, which returns the slot, asks for no raw
input and empties the slot; hence a handler runs only on an empty slot, so no
valid deferred event is overwritten or cleared; and whatever a poll leaves in
the slot is returned by the very next poll. -/
theorem no_deferred_event_loss (s0 : State) (calls : List PollCall)
    (h0 : s0.queuedEventTime = 0) (hs : slowFrom 0 calls = true)
    (pre : List PollCall) (c : PollCall) (post : List PollCall)
    (hsplit : calls = pre ++ c :: post) :
    let s := finalState s0 pre
    let r := pollEvent s c.now c.event c.raw
    (s.queuedInputEvent.type ≠ EventType.EVENT_INVALID →
      r.ret = true ∧ r.event = s.queuedInputEvent ∧ r.fetched = false ∧
      r.state.queuedInputEvent.type = EventType.EVENT_INVALID) ∧
    (r.fetched = true → s.queuedInputEvent.type = EventType.EVENT_INVALID) ∧
    (∀ (next : PollCall) (rest : List PollCall), post = next :: rest →
      r.state.queuedInputEvent.type ≠ EventType.EVENT_INVALID →
      (pollEvent r.state next.now next.event next.raw).ret = true ∧
      (pollEvent r.state next.now next.event next.raw).event = r.state.queuedInputEvent ∧
      (pollEvent r.state next.now next.event next.raw).fetched = false ∧
      (pollEvent r.state next.now next.event next.raw).state.queuedInputEvent.type =
        EventType.EVENT_INVALID) := by
  intro s r
  have key : ∀ (pre1 : List PollCall) (c1 : PollCall) (post1 : List PollCall),
      calls = pre1 ++ c1 :: post1 →
      (finalState s0 pre1).queuedInputEvent.type ≠ EventType.EVENT_INVALID →
      (pollEvent (finalState s0 pre1) c1.now c1.event c1.raw).ret = true ∧
      (pollEvent (finalState s0 pre1) c1.now c1.event c1.raw).event =
        (finalState s0 pre1).queuedInputEvent ∧
      (pollEvent (finalState s0 pre1) c1.now c1.event c1.raw).fetched = false ∧
      (pollEvent (finalState s0 pre1) c1.now c1.event c1.raw).state.queuedInputEvent.type =
        EventType.EVENT_INVALID := by
    intro pre1 c1 post1 hsp hv
    have hd := deadline_reached calls s0 0 (le_of_eq h0) hs pre1 c1 post1 hsp
    rw [pollEvent_due _ c1.now c1.event c1.raw hv hd]
    exact ⟨rfl, rfl, rfl, rfl⟩
  refine ⟨key pre c post hsplit, ?_, ?_⟩
  · intro hf
    by_contra hv
    have := (key pre c post hsplit hv).2.2.1
    rw [this] at hf
    exact Bool.false_ne_true hf
  · intro next rest hpost hv
    have hfs : finalState s0 (pre ++ [c]) = r.state := by
      rw [finalState_append]; rfl
    have hsp : calls = (pre ++ [c]) ++ next :: rest := by
      rw [hsplit, hpost]; simp
    have := key (pre ++ [c]) next rest hsp
    rw [hfs] at this
    exact this hv

/-- Instance of `no_deferred_event_loss`: from the initial state, a key press
polled at 0 puts key-up in the slot, and the next poll, 50 ms later, returns
that key-up although another key press is waiting. -/
theorem no_deferred_event_loss_witness :
    (pollEvent (pollEvent exampleState 0 noEvent (some ⟨InputEvent.kInputKeyPressed, 65, 0⟩)).state
      50 noEvent (some ⟨InputEvent.kInputKeyPressed, 66, 0⟩)).event =
      { noEvent with type := EventType.EVENT_KEYUP, kbd := ⟨65, 65, 0⟩ } :=
  ((no_deferred_event_loss exampleState
    [⟨0, noEvent, some ⟨InputEvent.kInputKeyPressed, 65, 0⟩⟩,
     ⟨50, noEvent, some ⟨InputEvent.kInputKeyPressed, 66, 0⟩⟩]
    rfl (by decide) [] ⟨0, noEvent, some ⟨InputEvent.kInputKeyPressed, 65, 0⟩⟩
    [⟨50, noEvent, some ⟨InputEvent.kInputKeyPressed, 66, 0⟩⟩] rfl).2.2
    ⟨50, noEvent, some ⟨InputEvent.kInputKeyPressed, 66, 0⟩⟩ [] rfl (by decide)).2.1

/-! ## Unrecognized input -/

/-- The `default:` branch of the `switch`. A kind value with no `case` label,
which none of the enumerators of the raw-event enum is, leaves the `switch` by
`break` and reaches the `return true` after it, with the buffer of the caller
and the translator state untouched. -/
theorem pollEvent_default_branch (s : State) (now : Int) (event : Event)
    (hq : s.queuedInputEvent.type = EventType.EVENT_INVALID ∨ now < s.queuedEventTime)
    (code : Nat) (v1 v2 : Int) :
    pollEvent s now event (some ⟨InputEvent.kInputOther code, v1, v2⟩) =
      { ret := true, event := event
        state := { s with timerCallbackNext := (timerStep s now).timerCallbackNext }
        fetched := true } := by
  rw [pollEvent_not_due s now event _ hq]
  simp only [dispatch]
  congr 1
  exact timerStep_eq s now

/-- C6 (key normalisation). For every raw key code `k` the key-press handler
emits key-down and puts key-up in the deferred slot with deadline `now + 50`;
both carry flags 0 and the same key code and ASCII value. For `k = 10` these
are the Return key code and the carriage-return ASCII value, neither of which
is 10; for `k ≠ 10` they are `k` and `k`. -/
theorem key_normalisation (s : State) (now : Int) (event : Event) (k : Int) :
    let r := handleEvent_keyPressed s now event k
    r.ret = true ∧
    r.event.type = EventType.EVENT_KEYDOWN ∧
    r.state.queuedInputEvent.type = EventType.EVENT_KEYUP ∧
    r.state.queuedEventTime = now + 50 ∧
    r.event.kbd.flags = 0 ∧ r.state.queuedInputEvent.kbd.flags = 0 ∧
    r.state.queuedInputEvent.kbd = r.event.kbd ∧
    (k = 10 →
      r.event.kbd.keycode = KEYCODE_RETURN ∧ r.event.kbd.ascii = ASCII_RETURN ∧
      r.event.kbd.keycode ≠ 10 ∧ r.event.kbd.ascii ≠ 10) ∧
    (k ≠ 10 → r.event.kbd.keycode = k ∧ r.event.kbd.ascii = k) := by
  intro r
  refine ⟨rfl, rfl, rfl, rfl, rfl, rfl, rfl, ?_, ?_⟩
  · intro hk
    subst hk
    simp [r, handleEvent_keyPressed, KEYCODE_RETURN, ASCII_RETURN]
  · intro hk
    simp [r, handleEvent_keyPressed, hk]

/-- Instance of `key_normalisation`: line feed becomes Return and carriage
return, the letter 65 passes through. -/
theorem key_normalisation_witness :
    ((handleEvent_keyPressed exampleState 0 noEvent 10).event.kbd.keycode = KEYCODE_RETURN ∧
      (handleEvent_keyPressed exampleState 0 noEvent 10).event.kbd.ascii = ASCII_RETURN ∧
      (handleEvent_keyPressed exampleState 0 noEvent 10).event.kbd.keycode ≠ 10 ∧
      (handleEvent_keyPressed exampleState 0 noEvent 10).event.kbd.ascii ≠ 10) ∧
    ((handleEvent_keyPressed exampleState 0 noEvent 65).event.kbd.keycode = 65 ∧
      (handleEvent_keyPressed exampleState 0 noEvent 65).event.kbd.ascii = 65) :=
  ⟨(key_normalisation exampleState 0 noEvent 10).2.2.2.2.2.2.2.1 rfl,
   (key_normalisation exampleState 0 noEvent 65).2.2.2.2.2.2.2.2 (by decide)⟩

/-! ## Secondary finger: double tap -/

/-- C7, as stated, fails in two ways. In click-and-drag mode two rapid
secondary taps (ups at 1100 and 1300, each 100 ms after its down, the deferred
right-button-down of each down flushed by an idle poll) emit no Escape at all:
both up polls return no event and the sequence delivers only button events.
Outside click-and-drag mode, while the clock is below 400 the reset value 0 of
the last-tap timestamp is itself less than 400 ms ago: after the taps with ups
at 10 and 20, a third tap with up at 30 emits key-down Escape again. -/
theorem double_tap_escape_counterexample :
    (emitted (runPolls { exampleState with mouseClickAndDragEnabled := true }
      [⟨1000, noEvent, some ⟨InputEvent.kInputMouseSecondDown, 5, 7⟩⟩,
       ⟨1010, noEvent, none⟩,
       ⟨1100, noEvent, some ⟨InputEvent.kInputMouseSecondUp, 5, 7⟩⟩,
       ⟨1200, noEvent, some ⟨InputEvent.kInputMouseSecondDown, 5, 7⟩⟩,
       ⟨1210, noEvent, none⟩,
       ⟨1300, noEvent, some ⟨InputEvent.kInputMouseSecondUp, 5, 7⟩⟩])).map (fun e => e.type) =
      [EventType.EVENT_LBUTTONUP, EventType.EVENT_RBUTTONDOWN,
       EventType.EVENT_LBUTTONUP, EventType.EVENT_RBUTTONDOWN] ∧
    (emitted (runPolls exampleState
      [⟨5, noEvent, some ⟨InputEvent.kInputMouseSecondDown, 5, 7⟩⟩,
       ⟨10, noEvent, some ⟨InputEvent.kInputMouseSecondUp, 5, 7⟩⟩,
       ⟨15, noEvent, some ⟨InputEvent.kInputMouseSecondDown, 5, 7⟩⟩,
       ⟨20, noEvent, some ⟨InputEvent.kInputMouseSecondUp, 5, 7⟩⟩,
       ⟨25, noEvent, some ⟨InputEvent.kInputMouseSecondDown, 5, 7⟩⟩,
       ⟨30, noEvent, some ⟨InputEvent.kInputMouseSecondUp, 5, 7⟩⟩])).map
        (fun e => (e.type, e.kbd.keycode)) =
      [(EventType.EVENT_KEYDOWN, KEYCODE_ESCAPE), (EventType.EVENT_KEYDOWN, KEYCODE_ESCAPE),
       (EventType.EVENT_KEYDOWN, KEYCODE_ESCAPE)] := by
  decide

/-- The secondary-finger down on a fetched raw event, outside click-and-drag
mode: no event; flag, down time and anchor are recorded. -/
theorem dispatch_secondDown_plain (s : State) (now : Int) (event : Event) (x y : Int)
    (hcd : s.mouseClickAndDragEnabled = false) :
    dispatch s now event ⟨InputEvent.kInputMouseSecondDown, x, y⟩ =
      { ret := false, event := event
        state := { s with
          secondaryTapped := true, lastSecondaryDown := now
          gestureStartX := x, gestureStartY := y }
        fetched := true } := by
  simp [dispatch, afterHandler, handleEvent_secondMouseDown, hcd]

/-- The secondary-finger up on a fetched raw event, outside click-and-drag
mode, as a tap that is not the second of a double tap: right click. -/
theorem dispatch_secondUp_rightClick (s : State) (now : Int) (event : Event) (x y : Int)
    (hcd : s.mouseClickAndDragEnabled = false)
    (htap : now - s.lastSecondaryDown < 400)
    (hsingle : 400 ≤ now - s.lastSecondaryTap ∨ s.videoContext.overlayVisible = true) :
    dispatch s now event ⟨InputEvent.kInputMouseSecondUp, x, y⟩ =
      { ret := true
        event := { event with
          type := EventType.EVENT_RBUTTONDOWN
          mouse := ⟨s.videoContext.mouseX, s.videoContext.mouseY⟩ }
        state := { s with
          secondaryTapped := false
          queuedInputEvent := { s.queuedInputEvent with
            type := EventType.EVENT_RBUTTONUP
            mouse := ⟨s.videoContext.mouseX, s.videoContext.mouseY⟩ }
          lastSecondaryTap := now
          queuedEventTime := now + 50 }
        fetched := true } := by
  have hne : ¬ (now - s.lastSecondaryTap < 400 ∧ s.videoContext.overlayVisible = false) := by
    rintro ⟨h1, h2⟩
    rcases hsingle with h | h
    · omega
    · rw [h2] at h; exact Bool.false_ne_true h
  simp [dispatch, afterHandler, handleEvent_secondMouseUp, hcd, htap, hne,
    kQueuedInputEventDelay]

/-- The secondary-finger up on a fetched raw event, outside click-and-drag
mode, as the second tap of a double tap with no overlay: Escape. -/
theorem dispatch_secondUp_escape (s : State) (now : Int) (event : Event) (x y : Int)
    (hcd : s.mouseClickAndDragEnabled = false)
    (hov : s.videoContext.overlayVisible = false)
    (htap : now - s.lastSecondaryDown < 400)
    (hdouble : now - s.lastSecondaryTap < 400) :
    dispatch s now event ⟨InputEvent.kInputMouseSecondUp, x, y⟩ =
      { ret := true
        event := { event with
          type := EventType.EVENT_KEYDOWN
          kbd := { keycode := KEYCODE_ESCAPE, ascii := ASCII_ESCAPE, flags := 0 } }
        state := { s with
          secondaryTapped := false
          queuedInputEvent := { s.queuedInputEvent with
            type := EventType.EVENT_KEYUP
            kbd := { keycode := KEYCODE_ESCAPE, ascii := ASCII_ESCAPE, flags := 0 } }
          queuedEventTime := now + 50
          lastSecondaryTap := 0 }
        fetched := true } := by
  simp [dispatch, afterHandler, handleEvent_secondMouseUp, hcd, hov, htap, hdouble,
    kQueuedInputEventDelay]

/-- A whole secondary tap handled as a right click: down at `d`, up at `u`. -/
theorem secondary_tap_rightClick (s : State) (d u : Int) (e e' : Event) (x y x' y' : Int)
    (hcd : s.mouseClickAndDragEnabled = false)
    (htap : u - d < 400)
    (hsingle : 400 ≤ u - s.lastSecondaryTap ∨ s.videoContext.overlayVisible = true) :
    dispatch (dispatch s d e ⟨InputEvent.kInputMouseSecondDown, x, y⟩).state u e'
        ⟨InputEvent.kInputMouseSecondUp, x', y'⟩ =
      { ret := true
        event := { e' with
          type := EventType.EVENT_RBUTTONDOWN
          mouse := ⟨s.videoContext.mouseX, s.videoContext.mouseY⟩ }
        state := { s with
          secondaryTapped := false, lastSecondaryDown := d
          gestureStartX := x, gestureStartY := y
          queuedInputEvent := { s.queuedInputEvent with
            type := EventType.EVENT_RBUTTONUP
            mouse := ⟨s.videoContext.mouseX, s.videoContext.mouseY⟩ }
          lastSecondaryTap := u
          queuedEventTime := u + 50 }
        fetched := true } := by
  rw [dispatch_secondDown_plain s d e x y hcd]
  exact dispatch_secondUp_rightClick _ u e' x' y' hcd htap hsingle

/-- A whole secondary tap handled as Escape: down at `d`, up at `u`. -/
theorem secondary_tap_escape (s : State) (d u : Int) (e e' : Event) (x y x' y' : Int)
    (hcd : s.mouseClickAndDragEnabled = false)
    (hov : s.videoContext.overlayVisible = false)
    (htap : u - d < 400) (hdouble : u - s.lastSecondaryTap < 400) :
    dispatch (dispatch s d e ⟨InputEvent.kInputMouseSecondDown, x, y⟩).state u e'
        ⟨InputEvent.kInputMouseSecondUp, x', y'⟩ =
      { ret := true
        event := { e' with
          type := EventType.EVENT_KEYDOWN
          kbd := { keycode := KEYCODE_ESCAPE, ascii := ASCII_ESCAPE, flags := 0 } }
        state := { s with
          secondaryTapped := false, lastSecondaryDown := d
          gestureStartX := x, gestureStartY := y
          queuedInputEvent := { s.queuedInputEvent with
            type := EventType.EVENT_KEYUP
            kbd := { keycode := KEYCODE_ESCAPE, ascii := ASCII_ESCAPE, flags := 0 } }
          queuedEventTime := u + 50
          lastSecondaryTap := 0 }
        fetched := true } := by
  rw [dispatch_secondDown_plain s d e x y hcd]
  exact dispatch_secondUp_escape _ u e' x' y' hcd hov htap hdouble

/-- C7, amended. With no overlay visible and click-and-drag mode off, take
three secondary taps, each up less than 400 ms after its down, every raw event
reaching the `switch` of the poll. If the first tap is handled as a right click
(its up is at least 400 ms after the last-tap timestamp) and the second up is
less than 400 ms after the first up, then the second up emits key-down Escape
and defers key-up Escape (flags 0, Escape key code and ASCII, deadline
`now + 50`) and resets the last-tap timestamp to 0; and a third tap whose up is
polled at a clock value of at least 400 does not take the Escape branch again:
it is a right click. -/
theorem double_secondary_tap_escape (s : State)
    (hov : s.videoContext.overlayVisible = false)
    (hcd : s.mouseClickAndDragEnabled = false)
    (d1 u1 d2 u2 d3 u3 : Int) (x1 y1 x2 y2 x3 y3 x4 y4 x5 y5 x6 y6 : Int)
    (e1 e2 e3 e4 e5 e6 : Event)
    (htap1 : u1 - d1 < 400) (hfirst : 400 ≤ u1 - s.lastSecondaryTap)
    (htap2 : u2 - d2 < 400) (hpair : u2 - u1 < 400)
    (htap3 : u3 - d3 < 400) (hclock : 400 ≤ u3) :
    let rA := dispatch (dispatch s d1 e1 ⟨InputEvent.kInputMouseSecondDown, x1, y1⟩).state
      u1 e2 ⟨InputEvent.kInputMouseSecondUp, x2, y2⟩
    let sB := (dispatch rA.state d2 e3 ⟨InputEvent.kInputMouseSecondDown, x3, y3⟩).state
    let rB := dispatch sB u2 e4 ⟨InputEvent.kInputMouseSecondUp, x4, y4⟩
    let rC := dispatch (dispatch rB.state d3 e5 ⟨InputEvent.kInputMouseSecondDown, x5, y5⟩).state
      u3 e6 ⟨InputEvent.kInputMouseSecondUp, x6, y6⟩
    (rA.ret = true ∧ rA.event.type = EventType.EVENT_RBUTTONDOWN ∧
      rA.state.lastSecondaryTap = u1) ∧
    (rB.ret = true ∧
      rB.event = { e4 with
        type := EventType.EVENT_KEYDOWN
        kbd := { keycode := KEYCODE_ESCAPE, ascii := ASCII_ESCAPE, flags := 0 } } ∧
      rB.state.queuedInputEvent = { sB.queuedInputEvent with
        type := EventType.EVENT_KEYUP
        kbd := { keycode := KEYCODE_ESCAPE, ascii := ASCII_ESCAPE, flags := 0 } } ∧
      rB.state.queuedEventTime = u2 + 50 ∧
      rB.state.lastSecondaryTap = 0) ∧
    (rC.ret = true ∧ rC.event.type = EventType.EVENT_RBUTTONDOWN ∧
      rC.event.type ≠ EventType.EVENT_KEYDOWN ∧
      rC.state.queuedInputEvent.type = EventType.EVENT_RBUTTONUP ∧
      rC.state.lastSecondaryTap = u3) := by
  intro rA sB rB rC
  have hA : rA = _ :=
    secondary_tap_rightClick s d1 u1 e1 e2 x1 y1 x2 y2 hcd htap1 (Or.inl hfirst)
  have cA : rA.state.mouseClickAndDragEnabled = false := by rw [hA]; exact hcd
  have oA : rA.state.videoContext.overlayVisible = false := by rw [hA]; exact hov
  have tA : rA.state.lastSecondaryTap = u1 := by rw [hA]
  have hsB : sB = _ := congrArg PollResult.state (dispatch_secondDown_plain rA.state d2 e3 x3 y3 cA)
  have hB : rB = _ :=
    secondary_tap_escape rA.state d2 u2 e3 e4 x3 y3 x4 y4 cA oA htap2 (by rw [tA]; exact hpair)
  have cB : rB.state.mouseClickAndDragEnabled = false := by rw [hB]; exact cA
  have tB : rB.state.lastSecondaryTap = 0 := by rw [hB]
  have hC : rC = _ :=
    secondary_tap_rightClick rB.state d3 u3 e5 e6 x5 y5 x6 y6 cB htap3
      (Or.inl (by rw [tB]; omega))
  refine ⟨⟨?_, ?_, tA⟩, ⟨?_, ?_, ?_, ?_, tB⟩, ⟨?_, ?_, ?_, ?_, ?_⟩⟩
  · rw [hA]
  · rw [hA]
  · rw [hB]
  · rw [hB]
  · rw [hB, hsB]
  · rw [hB]
  · rw [hC]
  · rw [hC]
  · rw [hC]; simp
  · rw [hC]
  · rw [hC]

/-- Instance of `double_secondary_tap_escape`: from the initial state, taps
with ups at 1100, 1300 and 1500 (each 100 ms after its down): right click,
Escape, right click. -/
theorem double_secondary_tap_escape_witness :
    (dispatch (dispatch (dispatch (dispatch exampleState
        1000 noEvent ⟨InputEvent.kInputMouseSecondDown, 5, 7⟩).state
        1100 noEvent ⟨InputEvent.kInputMouseSecondUp, 5, 7⟩).state
        1200 noEvent ⟨InputEvent.kInputMouseSecondDown, 5, 7⟩).state
        1300 noEvent ⟨InputEvent.kInputMouseSecondUp, 5, 7⟩).event =
      { noEvent with
        type := EventType.EVENT_KEYDOWN
        kbd := { keycode := KEYCODE_ESCAPE, ascii := ASCII_ESCAPE, flags := 0 } } :=
  (double_secondary_tap_escape exampleState rfl rfl 1000 1100 1200 1300 1400 1500
    5 7 5 7 5 7 5 7 5 7 5 7 noEvent noEvent noEvent noEvent noEvent noEvent
    (by decide) (by decide) (by decide) (by decide) (by decide) (by decide)).2.1.2.1

/-! ## Primary finger: touchpad-mode drag -/

/-- The `(int)` conversion of the touchpad formula `m - d / 0.5f` is
`m - 2 * d`. -/
theorem floatToInt_touchpad (m d : Int) :
    floatToInt ((m : ℚ) - (d : ℚ) / (1 / 2)) = m - 2 * d := by
  have h : (m : ℚ) - (d : ℚ) / (1 / 2) = ((m - 2 * d : Int) : ℚ) := by
    push_cast; ring
  rw [h]
  unfold floatToInt
  split
  · exact Int.floor_intCast _
  · exact Int.ceil_intCast _

/-- The clamping of the handler agrees with `max 0 (min v cap)` when the cap
is not negative. -/
theorem clamp_eq (v cap : Int) (hcap : 0 ≤ cap) :
    (if v < 0 then 0 else if v > cap then cap else v) = max 0 (min v cap) := by
  split_ifs with h1 h2
  · rw [max_eq_left]; exact le_trans (min_le_left _ _) (le_of_lt h1)
  · rw [min_eq_right (le_of_lt h2), max_eq_right hcap]
  · rw [min_eq_left (by omega), max_eq_right (by omega)]

/-- C8 (touchpad-mode drag). In touchpad mode, for a drag sample `(x, y)` that
differs from the last drag sample and non-negative surface dimensions `(W, H)`
(those of the overlay when it is visible, of the screen otherwise), the handler
emits one mouse-move event at
`(clamp (mouseX + 2 * (x - lastPadX)) 0 W, clamp (mouseY + 2 * (y - lastPadY)) 0 H)`,
warps the cursor to that position, and sets the last pad sample and the last
drag sample to `(x, y)`; the emitted position lies in `[0, W] x [0, H]`. The
single-precision arithmetic of the source is taken to be exact (`floatToInt`). -/
theorem touchpad_drag (s : State) (now : Int) (event : Event) (x y : Int)
    (htp : s.touchpadModeEnabled = true)
    (hne : ¬ (s.lastDragPosX = x ∧ s.lastDragPosY = y))
    (hW : 0 ≤ (if s.videoContext.overlayVisible then s.videoContext.overlayWidth
      else s.videoContext.screenWidth))
    (hH : 0 ≤ (if s.videoContext.overlayVisible then s.videoContext.overlayHeight
      else s.videoContext.screenHeight)) :
    let W := if s.videoContext.overlayVisible then s.videoContext.overlayWidth
      else s.videoContext.screenWidth
    let H := if s.videoContext.overlayVisible then s.videoContext.overlayHeight
      else s.videoContext.screenHeight
    let px := max 0 (min (s.videoContext.mouseX + 2 * (x - s.lastPadX)) W)
    let py := max 0 (min (s.videoContext.mouseY + 2 * (y - s.lastPadY)) H)
    handleEvent_mouseDragged s now event x y =
      { ret := true
        event := { event with type := EventType.EVENT_MOUSEMOVE, mouse := ⟨px, py⟩ }
        state := { s with
          lastDragPosX := x, lastDragPosY := y, lastPadX := x, lastPadY := y
          videoContext := { s.videoContext with mouseX := px, mouseY := py } } } ∧
    (0 ≤ px ∧ px ≤ W) ∧ (0 ≤ py ∧ py ≤ H) := by
  intro W H px py
  refine ⟨?_, ⟨le_max_left _ _, max_le hW (min_le_right _ _)⟩,
    ⟨le_max_left _ _, max_le hH (min_le_right _ _)⟩⟩
  have ex : s.videoContext.mouseX - 2 * (s.lastPadX - x) =
      s.videoContext.mouseX + 2 * (x - s.lastPadX) := by ring
  have ey : s.videoContext.mouseY - 2 * (s.lastPadY - y) =
      s.videoContext.mouseY + 2 * (y - s.lastPadY) := by ring
  unfold handleEvent_mouseDragged
  rw [if_neg hne]
  simp only [htp, if_true, warpMouse, Int.cast_sub, ← Int.cast_sub, floatToInt_touchpad,
    clamp_eq _ _ hW, clamp_eq _ _ hH, ex, ey]

/-- Instance of `touchpad_drag`: cursor at (10, 20) on a 320 x 200 screen, pad
sample moving from (100, 100) to (300, 90): the doubled delta (400, -20) takes
the cursor to (410, 0), which is clamped to (320, 0). -/
theorem touchpad_drag_witness :
    (handleEvent_mouseDragged exampleTouchpad 0 noEvent 300 90).event.mouse = ⟨320, 0⟩ ∧
    (handleEvent_mouseDragged exampleTouchpad 0 noEvent 300 90).state.videoContext.mouseX = 320 ∧
    (handleEvent_mouseDragged exampleTouchpad 0 noEvent 300 90).state.videoContext.mouseY = 0 :=
  ⟨congrArg (fun r => r.event.mouse)
      (touchpad_drag exampleTouchpad 0 noEvent 300 90 rfl (by decide) (by decide)
        (by decide)).1,
   congrArg (fun r => r.state.videoContext.mouseX)
      (touchpad_drag exampleTouchpad 0 noEvent 300 90 rfl (by decide) (by decide)
        (by decide)).1,
   congrArg (fun r => r.state.videoContext.mouseY)
      (touchpad_drag exampleTouchpad 0 noEvent 300 90 rfl (by decide) (by decide)
        (by decide)).1⟩

/-! ## Two-finger drag: swipe classification -/

/-- C9 (swipe down opens the main menu). With the anchor `(sx, sy)` set, a
second-finger drag sample `(x, y)` with `|x - sx| < 20` and `y - sy ≥ 100`
makes the handler emit one main-menu event (the rest of the buffer untouched),
empty the deferred slot, set the deadline to `now + 50` and clear the anchor to
(-1, -1); nothing else changes, in particular neither mode flag. -/
theorem swipe_down_main_menu (s : State) (now : Int) (event : Event) (x y : Int)
    (hsx : s.gestureStartX ≠ -1) (hsy : s.gestureStartY ≠ -1)
    (hx : |x - s.gestureStartX| < 20) (hy : y - s.gestureStartY ≥ 100) :
    handleEvent_mouseSecondDragged s now event x y =
      { ret := true
        event := { event with type := EventType.EVENT_MAINMENU }
        state := { s with
          gestureStartX := -1, gestureStartY := -1
          queuedInputEvent := { s.queuedInputEvent with type := EventType.EVENT_INVALID }
          queuedEventTime := now + 50 } } ∧
    (handleEvent_mouseSecondDragged s now event x y).state.touchpadModeEnabled =
      s.touchpadModeEnabled ∧
    (handleEvent_mouseSecondDragged s now event x y).state.mouseClickAndDragEnabled =
      s.mouseClickAndDragEnabled := by
  have hres : handleEvent_mouseSecondDragged s now event x y =
      { ret := true
        event := { event with type := EventType.EVENT_MAINMENU }
        state := { s with
          gestureStartX := -1, gestureStartY := -1
          queuedInputEvent := { s.queuedInputEvent with type := EventType.EVENT_INVALID }
          queuedEventTime := now + 50 } } := by
    have hlen : |x - s.gestureStartX| ≥ kNeededLength ∨ |y - s.gestureStartY| ≥ kNeededLength := by
      right
      exact le_trans hy (le_abs_self _)
    unfold handleEvent_mouseSecondDragged
    rw [if_neg (by push_neg; exact ⟨hsx, hsy⟩)]
    simp only [hlen, if_true]
    rw [if_pos ⟨hx, hy⟩]
    rfl
  refine ⟨hres, ?_, ?_⟩ <;> rw [hres]

/-- Instance of `swipe_down_main_menu`: anchor (0, 0), sample (10, 150), a
key-up pending in the slot: main menu, and the slot is emptied. -/
theorem swipe_down_main_menu_witness :
    (handleEvent_mouseSecondDragged exampleAnchored 30 noEvent 10 150).ret = true ∧
    (handleEvent_mouseSecondDragged exampleAnchored 30 noEvent 10 150).event.type =
      EventType.EVENT_MAINMENU ∧
    exampleAnchored.queuedInputEvent.type = EventType.EVENT_KEYUP ∧
    (handleEvent_mouseSecondDragged exampleAnchored 30 noEvent 10 150).state.queuedInputEvent.type =
      EventType.EVENT_INVALID ∧
    (handleEvent_mouseSecondDragged exampleAnchored 30 noEvent 10 150).state.queuedEventTime = 80 ∧
    (handleEvent_mouseSecondDragged exampleAnchored 30 noEvent 10 150).state.gestureStartX = -1 ∧
    (handleEvent_mouseSecondDragged exampleAnchored 30 noEvent 10 150).state.gestureStartY = -1 :=
  have h := (swipe_down_main_menu exampleAnchored 30 noEvent 10 150 (by decide) (by decide)
    (by decide) (by decide)).1
  ⟨congrArg HandlerResult.ret h, congrArg (fun r => r.event.type) h, rfl,
   congrArg (fun r => r.state.queuedInputEvent.type) h,
   congrArg (fun r => r.state.queuedEventTime) h,
   congrArg (fun r => r.state.gestureStartX) h,
   congrArg (fun r => r.state.gestureStartY) h⟩

/-- C10 (swipe threshold). With the anchor `(sx, sy)` set: a second-finger drag
sample with `|x - sx| < 100` and `|y - sy| < 100` emits no event and leaves the
whole state as it is; a sample with `|x - sx| ≥ 100` or `|y - sy| ≥ 100` clears
the anchor to (-1, -1), whichever classification applies, or none. -/
theorem swipe_threshold (s : State) (now : Int) (event : Event) (x y : Int)
    (hsx : s.gestureStartX ≠ -1) (hsy : s.gestureStartY ≠ -1) :
    (|x - s.gestureStartX| < 100 ∧ |y - s.gestureStartY| < 100 →
      handleEvent_mouseSecondDragged s now event x y =
        { ret := false, event := event, state := s }) ∧
    (|x - s.gestureStartX| ≥ 100 ∨ |y - s.gestureStartY| ≥ 100 →
      (handleEvent_mouseSecondDragged s now event x y).state.gestureStartX = -1 ∧
      (handleEvent_mouseSecondDragged s now event x y).state.gestureStartY = -1) := by
  have hset : ¬ (s.gestureStartX = -1 ∨ s.gestureStartY = -1) := by
    push_neg; exact ⟨hsx, hsy⟩
  constructor
  · rintro ⟨hx, hy⟩
    have hlen : ¬ (|x - s.gestureStartX| ≥ kNeededLength ∨
        |y - s.gestureStartY| ≥ kNeededLength) := by
      simp only [kNeededLength]; push_neg; exact ⟨hx, hy⟩
    unfold handleEvent_mouseSecondDragged
    rw [if_neg hset]
    simp only [hlen, if_false]
  · intro hlen
    have hlen2 : |x - s.gestureStartX| ≥ kNeededLength ∨
        |y - s.gestureStartY| ≥ kNeededLength := hlen
    unfold handleEvent_mouseSecondDragged
    rw [if_neg hset]
    simp only [hlen2, if_true]
    split_ifs <;> simp

/-- Instance of `swipe_threshold`: anchor (0, 0); the sample (50, 0) changes
nothing, the diagonal sample (150, 150) clears the anchor. -/
theorem swipe_threshold_witness :
    handleEvent_mouseSecondDragged exampleAnchored 30 noEvent 50 0 =
      { ret := false, event := noEvent, state := exampleAnchored } ∧
    ((handleEvent_mouseSecondDragged exampleAnchored 30 noEvent 150 150).state.gestureStartX = -1 ∧
     (handleEvent_mouseSecondDragged exampleAnchored 30 noEvent 150 150).state.gestureStartY = -1) :=
  ⟨(swipe_threshold exampleAnchored 30 noEvent 50 0 (by decide) (by decide)).1
      ⟨by decide, by decide⟩,
   (swipe_threshold exampleAnchored 30 noEvent 150 150 (by decide) (by decide)).2
      (Or.inl (by decide))⟩

/-! ## Two-finger drag: the mode toggles -/

/-- With the anchor at "none" a second-finger drag sample does nothing. -/
theorem mouseSecondDragged_no_anchor (s : State) (now : Int) (event : Event) (x y : Int)
    (h : s.gestureStartX = -1 ∨ s.gestureStartY = -1) :
    handleEvent_mouseSecondDragged s now event x y =
      { ret := false, event := event, state := s } := by
  unfold handleEvent_mouseSecondDragged
  rw [if_pos h]

/-- With the anchor at "none", any number of further second-finger drag
samples do nothing. -/
theorem runSecondDragged_no_anchor (samples : List (Int × Event × Int × Int)) (s : State)
    (h : s.gestureStartX = -1 ∨ s.gestureStartY = -1) :
    ∀ r ∈ runSecondDragged s samples, r.ret = false ∧ r.state = s := by
  induction samples with
  | nil => intro r hr; simp [runSecondDragged] at hr
  | cons c cs ih =>
    intro r hr
    simp only [runSecondDragged, mouseSecondDragged_no_anchor s _ _ _ _ h,
      List.mem_cons] at hr
    rcases hr with hr | hr
    · rw [hr]; exact ⟨rfl, rfl⟩
    · exact ih r hr

/-- C11 (swipe right toggles touchpad mode once per gesture). With the anchor
`(sx, sy)` set, a second-finger drag sample `(x, y)` with `|y - sy| < 20` and
`x - sx ≥ 100` makes the handler negate the touchpad-mode flag and clear the
anchor to (-1, -1), with no portable event; nothing else changes, in
particular not click-and-drag mode, the deferred slot or its deadline. Every
further second-finger drag sample after that (until a secondary-finger down
sets a new anchor) emits no event and changes no state. -/
theorem swipe_right_toggles_touchpad (s : State) (now : Int) (event : Event) (x y : Int)
    (hsx : s.gestureStartX ≠ -1) (hsy : s.gestureStartY ≠ -1)
    (hy : |y - s.gestureStartY| < 20) (hx : x - s.gestureStartX ≥ 100) :
    let r := handleEvent_mouseSecondDragged s now event x y
    r = { ret := false, event := event
          state := { s with
            gestureStartX := -1, gestureStartY := -1
            touchpadModeEnabled := !s.touchpadModeEnabled } } ∧
    r.state.mouseClickAndDragEnabled = s.mouseClickAndDragEnabled ∧
    r.state.queuedInputEvent = s.queuedInputEvent ∧
    r.state.queuedEventTime = s.queuedEventTime ∧
    (∀ (samples : List (Int × Event × Int × Int)),
      ∀ q ∈ runSecondDragged r.state samples, q.ret = false ∧ q.state = r.state) := by
  intro r
  have hres : r =
      { ret := false, event := event
        state := { s with
          gestureStartX := -1, gestureStartY := -1
          touchpadModeEnabled := !s.touchpadModeEnabled } } := by
    have hset : ¬ (s.gestureStartX = -1 ∨ s.gestureStartY = -1) := by
      push_neg; exact ⟨hsx, hsy⟩
    have hax : |x - s.gestureStartX| ≥ 100 := le_trans hx (le_abs_self _)
    have hlen : |x - s.gestureStartX| ≥ kNeededLength ∨
        |y - s.gestureStartY| ≥ kNeededLength := Or.inl hax
    have c1 : ¬ (|x - s.gestureStartX| < kMaxDeviation ∧ y - s.gestureStartY ≥ kNeededLength) := by
      simp only [kMaxDeviation]; rintro ⟨h, -⟩; omega
    have c2 : ¬ (|x - s.gestureStartX| < kMaxDeviation ∧
        -(y - s.gestureStartY) ≥ kNeededLength) := by
      simp only [kMaxDeviation]; rintro ⟨h, -⟩; omega
    have c3 : |y - s.gestureStartY| < kMaxDeviation ∧ x - s.gestureStartX ≥ kNeededLength :=
      ⟨hy, hx⟩
    show handleEvent_mouseSecondDragged s now event x y = _
    unfold handleEvent_mouseSecondDragged
    rw [if_neg hset]
    simp only [hlen, if_true]
    rw [if_neg c1, if_neg c2, if_pos c3]
  refine ⟨hres, by rw [hres], by rw [hres], by rw [hres], ?_⟩
  intro samples
  exact runSecondDragged_no_anchor samples r.state (Or.inl (by rw [hres]))

/-- Instance of `swipe_right_toggles_touchpad`: anchor (0, 0); the sample
(50, 0) does nothing, the sample (150, 0) turns touchpad mode on without an
event and clears the anchor, and a further sample (300, 0) does nothing. -/
theorem swipe_right_toggles_touchpad_witness :
    handleEvent_mouseSecondDragged exampleAnchored 30 noEvent 50 0 =
      { ret := false, event := noEvent, state := exampleAnchored } ∧
    handleEvent_mouseSecondDragged exampleAnchored 40 noEvent 150 0 =
      { ret := false, event := noEvent
        state := { exampleAnchored with
          gestureStartX := -1, gestureStartY := -1, touchpadModeEnabled := true } } ∧
    (∀ q ∈ runSecondDragged (handleEvent_mouseSecondDragged exampleAnchored 40 noEvent 150 0).state
        [(50, noEvent, 300, 0)],
      q.ret = false ∧
      q.state = (handleEvent_mouseSecondDragged exampleAnchored 40 noEvent 150 0).state) :=
  ⟨by decide,
   (swipe_right_toggles_touchpad exampleAnchored 40 noEvent 150 0 (by decide) (by decide)
      (by decide) (by decide)).1,
   (swipe_right_toggles_touchpad exampleAnchored 40 noEvent 150 0 (by decide) (by decide)
      (by decide) (by decide)).2.2.2.2 [(50, noEvent, 300, 0)]⟩

/-! ## The gesture anchor -/

/-- What a fetched raw event does to the anchor: it keeps it, clears it to
(-1, -1), or, for a secondary-finger down, sets it to the position of the
event. -/
theorem dispatch_anchor (s : State) (now : Int) (event : Event) (ie : InternalEvent) :
    ((dispatch s now event ie).state.gestureStartX = s.gestureStartX ∧
      (dispatch s now event ie).state.gestureStartY = s.gestureStartY) ∨
    ((dispatch s now event ie).state.gestureStartX = -1 ∧
      (dispatch s now event ie).state.gestureStartY = -1) ∨
    (ie.type = InputEvent.kInputMouseSecondDown ∧
      (dispatch s now event ie).state.gestureStartX = ie.value1 ∧
      (dispatch s now event ie).state.gestureStartY = ie.value2) := by
  obtain ⟨ty, v1, v2⟩ := ie
  cases ty <;>
    simp only [dispatch, afterHandler, handleEvent_mouseDown, handleEvent_mouseUp,
      handleEvent_mouseDragged, handleEvent_mouseSecondDragged, handleEvent_secondMouseDown,
      handleEvent_secondMouseUp, handleEvent_keyPressed, handleEvent_swipe, handleEvent_tap,
      handleEvent_orientationChanged, warpMouse] <;>
    (try split_ifs) <;> (try simp) <;> (try split_ifs) <;> (try simp)

/-- What a poll does to the anchor. -/
theorem pollEvent_anchor (s : State) (now : Int) (event : Event) (raw : Option InternalEvent) :
    ((pollEvent s now event raw).state.gestureStartX = s.gestureStartX ∧
      (pollEvent s now event raw).state.gestureStartY = s.gestureStartY) ∨
    ((pollEvent s now event raw).state.gestureStartX = -1 ∧
      (pollEvent s now event raw).state.gestureStartY = -1) ∨
    (∃ x y, raw = some ⟨InputEvent.kInputMouseSecondDown, x, y⟩ ∧
      (pollEvent s now event raw).state.gestureStartX = x ∧
      (pollEvent s now event raw).state.gestureStartY = y) := by
  have hx : (timerStep s now).gestureStartX = s.gestureStartX := by rw [timerStep_eq]
  have hy : (timerStep s now).gestureStartY = s.gestureStartY := by rw [timerStep_eq]
  by_cases h : s.queuedInputEvent.type = EventType.EVENT_INVALID ∨ now < s.queuedEventTime
  · rw [pollEvent_not_due s now event raw h]
    cases raw with
    | none => exact Or.inl ⟨hx, hy⟩
    | some ie =>
      have := dispatch_anchor (timerStep s now) now event ie
      rw [hx, hy] at this
      rcases this with h1 | h1 | ⟨h1, h2, h3⟩
      · exact Or.inl h1
      · exact Or.inr (Or.inl h1)
      · refine Or.inr (Or.inr ⟨ie.value1, ie.value2, ?_, h2, h3⟩)
        obtain ⟨ty, v1, v2⟩ := ie
        simp only at h1
        rw [h1]
  · push_neg at h
    rw [pollEvent_due s now event raw h.1 h.2]
    exact Or.inl ⟨hx, hy⟩

/-- The anchor invariant is kept by every sequence of polls in which no
secondary-finger down carries the coordinate -1. -/
theorem finalState_anchor (calls : List PollCall) (s : State)
    (hs : (s.gestureStartX = -1 ∧ s.gestureStartY = -1) ∨
      (s.gestureStartX ≠ -1 ∧ s.gestureStartY ≠ -1))
    (hcoords : ∀ c ∈ calls, ∀ x y : Int,
      c.raw = some ⟨InputEvent.kInputMouseSecondDown, x, y⟩ → x ≠ -1 ∧ y ≠ -1) :
    ((finalState s calls).gestureStartX = -1 ∧ (finalState s calls).gestureStartY = -1) ∨
    ((finalState s calls).gestureStartX ≠ -1 ∧ (finalState s calls).gestureStartY ≠ -1) := by
  induction calls generalizing s with
  | nil => exact hs
  | cons c cs ih =>
    simp only [finalState]
    apply ih
    · rcases pollEvent_anchor s c.now c.event c.raw with ⟨h1, h2⟩ | h | ⟨x, y, hr, h1, h2⟩
      · rw [h1, h2]; exact hs
      · exact Or.inl h
      · rw [h1, h2]
        exact Or.inr (hcoords c (List.mem_cons_self _ _) x y hr)
    · intro d hd
      exact hcoords d (List.mem_cons_of_mem _ hd)

/-- C12, as stated, fails: the coordinates of a secondary-finger down are
stored as the anchor whatever they are, so a down at (-1, 5) polled in the
initial state leaves the anchor with the first coordinate at "none" and the
second one set. -/
theorem gesture_anchor_counterexample :
    (finalState exampleState
      [⟨0, noEvent, some ⟨InputEvent.kInputMouseSecondDown, -1, 5⟩⟩]).gestureStartX = -1 ∧
    (finalState exampleState
      [⟨0, noEvent, some ⟨InputEvent.kInputMouseSecondDown, -1, 5⟩⟩]).gestureStartY = 5 := by
  decide

/-- C12, amended. In every state reached from the initial state (anchor "none")
by a sequence of polls, at any times and over any raw events, in which no
secondary-finger down carries the coordinate -1 (such as the non-negative
positions of a touch surface), the anchor is either fully "none" (both
coordinates -1) or fully set (both coordinates different from -1). -/
theorem gesture_anchor_invariant (touchpad : Bool) (orientation : ScreenOrientation)
    (vc : VideoContext) (calls : List PollCall)
    (hcoords : ∀ c ∈ calls, ∀ x y : Int,
      c.raw = some ⟨InputEvent.kInputMouseSecondDown, x, y⟩ → x ≠ -1 ∧ y ≠ -1) :
    ((finalState (initialState touchpad orientation vc) calls).gestureStartX = -1 ∧
      (finalState (initialState touchpad orientation vc) calls).gestureStartY = -1) ∨
    ((finalState (initialState touchpad orientation vc) calls).gestureStartX ≠ -1 ∧
      (finalState (initialState touchpad orientation vc) calls).gestureStartY ≠ -1) :=
  finalState_anchor calls (initialState touchpad orientation vc) (Or.inl ⟨rfl, rfl⟩) hcoords

/-- Instance of `gesture_anchor_invariant`: after a secondary-finger down at
(0, 7) and a drag sample at (150, 7) the anchor is fully set or fully "none". -/
theorem gesture_anchor_invariant_witness :
    ((finalState exampleState
        [⟨0, noEvent, some ⟨InputEvent.kInputMouseSecondDown, 0, 7⟩⟩,
         ⟨10, noEvent, some ⟨InputEvent.kInputMouseSecondDragged, 150, 7⟩⟩]).gestureStartX = -1 ∧
      (finalState exampleState
        [⟨0, noEvent, some ⟨InputEvent.kInputMouseSecondDown, 0, 7⟩⟩,
         ⟨10, noEvent, some ⟨InputEvent.kInputMouseSecondDragged, 150, 7⟩⟩]).gestureStartY = -1) ∨
    ((finalState exampleState
        [⟨0, noEvent, some ⟨InputEvent.kInputMouseSecondDown, 0, 7⟩⟩,
         ⟨10, noEvent, some ⟨InputEvent.kInputMouseSecondDragged, 150, 7⟩⟩]).gestureStartX ≠ -1 ∧
      (finalState exampleState
        [⟨0, noEvent, some ⟨InputEvent.kInputMouseSecondDown, 0, 7⟩⟩,
         ⟨10, noEvent, some ⟨InputEvent.kInputMouseSecondDragged, 150, 7⟩⟩]).gestureStartY ≠ -1) :=
  gesture_anchor_invariant false ScreenOrientation.kScreenOrientationPortrait exampleVideo
    [⟨0, noEvent, some ⟨InputEvent.kInputMouseSecondDown, 0, 7⟩⟩,
     ⟨10, noEvent, some ⟨InputEvent.kInputMouseSecondDragged, 150, 7⟩⟩]
    (by
      intro c hc x y h
      simp only [List.mem_cons, List.mem_singleton, List.not_mem_nil, or_false] at hc
      rcases hc with rfl | rfl
      · simp only [Option.some.injEq, InternalEvent.mk.injEq, true_and] at h
        obtain ⟨hx, hy⟩ := h
        subst hx; subst hy
        exact ⟨by decide, by decide⟩
      · simp at h)

/-! ## Mode toggles and platform-reported gestures -/

/-- C13 (swipe up toggles click-and-drag). In every state, a
platform-reported swipe up with 2 touches makes the swipe handler negate the
click-and-drag flag with no portable event, the deferred slot and its deadline
unchanged; when the toggle enables click-and-drag, touchpad mode is off
afterwards, and when it disables click-and-drag, touchpad mode is unchanged;
nothing else changes. The same holds for the two-finger drag handler whenever
the anchor `(sx, sy)` is set and the drag sample `(x, y)` has `|x - sx| < 20`
and `sy - y ≥ 100`; that handler also clears the anchor. A poll that reaches
the reported swipe (no deferred event due) returns no event and leaves exactly
the state of the swipe handler. -/
theorem swipe_up_toggles_click_and_drag (s : State) (now : Int) (event : Event) :
    (handleEvent_swipe s now event kUIViewSwipeUp 2 =
        { ret := false, event := event
          state := { s with
            mouseClickAndDragEnabled := !s.mouseClickAndDragEnabled
            touchpadModeEnabled := s.mouseClickAndDragEnabled && s.touchpadModeEnabled } } ∧
      (handleEvent_swipe s now event kUIViewSwipeUp 2).ret = false ∧
      (handleEvent_swipe s now event kUIViewSwipeUp 2).state.mouseClickAndDragEnabled =
        (!s.mouseClickAndDragEnabled) ∧
      (handleEvent_swipe s now event kUIViewSwipeUp 2).state.queuedInputEvent =
        s.queuedInputEvent ∧
      (handleEvent_swipe s now event kUIViewSwipeUp 2).state.queuedEventTime =
        s.queuedEventTime ∧
      ((handleEvent_swipe s now event kUIViewSwipeUp 2).state.mouseClickAndDragEnabled = true →
        (handleEvent_swipe s now event kUIViewSwipeUp 2).state.touchpadModeEnabled = false) ∧
      ((handleEvent_swipe s now event kUIViewSwipeUp 2).state.mouseClickAndDragEnabled = false →
        (handleEvent_swipe s now event kUIViewSwipeUp 2).state.touchpadModeEnabled =
          s.touchpadModeEnabled)) ∧
    (∀ (x y : Int), s.gestureStartX ≠ -1 → s.gestureStartY ≠ -1 →
      |x - s.gestureStartX| < 20 → s.gestureStartY - y ≥ 100 →
      handleEvent_mouseSecondDragged s now event x y =
        { ret := false, event := event
          state := { s with
            gestureStartX := -1, gestureStartY := -1
            mouseClickAndDragEnabled := !s.mouseClickAndDragEnabled
            touchpadModeEnabled := s.mouseClickAndDragEnabled && s.touchpadModeEnabled } } ∧
      (handleEvent_mouseSecondDragged s now event x y).ret = false ∧
      (handleEvent_mouseSecondDragged s now event x y).state.mouseClickAndDragEnabled =
        (!s.mouseClickAndDragEnabled) ∧
      (handleEvent_mouseSecondDragged s now event x y).state.queuedInputEvent =
        s.queuedInputEvent ∧
      (handleEvent_mouseSecondDragged s now event x y).state.queuedEventTime =
        s.queuedEventTime ∧
      ((handleEvent_mouseSecondDragged s now event x y).state.mouseClickAndDragEnabled = true →
        (handleEvent_mouseSecondDragged s now event x y).state.touchpadModeEnabled = false) ∧
      ((handleEvent_mouseSecondDragged s now event x y).state.mouseClickAndDragEnabled = false →
        (handleEvent_mouseSecondDragged s now event x y).state.touchpadModeEnabled =
          s.touchpadModeEnabled)) ∧
    (s.queuedInputEvent.type = EventType.EVENT_INVALID ∨ now < s.queuedEventTime →
      pollEvent s now event (some ⟨InputEvent.kInputSwipe, kUIViewSwipeUp, 2⟩) =
        { ret := false, event := event
          state := { s with
            timerCallbackNext := (timerStep s now).timerCallbackNext
            mouseClickAndDragEnabled := !s.mouseClickAndDragEnabled
            touchpadModeEnabled := s.mouseClickAndDragEnabled && s.touchpadModeEnabled }
          fetched := true }) := by
  have hswipe : ∀ (s' : State), handleEvent_swipe s' now event kUIViewSwipeUp 2 =
      { ret := false, event := event
        state := { s' with
          mouseClickAndDragEnabled := !s'.mouseClickAndDragEnabled
          touchpadModeEnabled := s'.mouseClickAndDragEnabled && s'.touchpadModeEnabled } } := by
    intro s'
    unfold handleEvent_swipe
    cases hcd : s'.mouseClickAndDragEnabled <;> simp
  refine ⟨?_, ?_, ?_⟩
  · have hq := hswipe s
    refine ⟨hq, ?_, ?_, ?_, ?_, ?_, ?_⟩
    · rw [hq]
    · rw [hq]
    · rw [hq]
    · rw [hq]
    · rw [hq]; cases s.mouseClickAndDragEnabled <;> simp
    · rw [hq]; cases s.mouseClickAndDragEnabled <;> simp
  · intro x y hsx hsy hx hy
    have hr : handleEvent_mouseSecondDragged s now event x y =
        { ret := false, event := event
          state := { s with
            gestureStartX := -1, gestureStartY := -1
            mouseClickAndDragEnabled := !s.mouseClickAndDragEnabled
            touchpadModeEnabled := s.mouseClickAndDragEnabled && s.touchpadModeEnabled } } := by
      have hset : ¬ (s.gestureStartX = -1 ∨ s.gestureStartY = -1) := by
        push_neg; exact ⟨hsx, hsy⟩
      have hay : |y - s.gestureStartY| ≥ 100 := by
        have := neg_le_abs (y - s.gestureStartY)
        omega
      have hlen : |x - s.gestureStartX| ≥ kNeededLength ∨
          |y - s.gestureStartY| ≥ kNeededLength := Or.inr hay
      have c1 : ¬ (|x - s.gestureStartX| < kMaxDeviation ∧
          y - s.gestureStartY ≥ kNeededLength) := by
        simp only [kNeededLength]; rintro ⟨-, h⟩; omega
      have c2 : |x - s.gestureStartX| < kMaxDeviation ∧
          -(y - s.gestureStartY) ≥ kNeededLength := by
        simp only [kNeededLength, kMaxDeviation]; exact ⟨hx, by omega⟩
      unfold handleEvent_mouseSecondDragged
      rw [if_neg hset]
      simp only [hlen, if_true]
      rw [if_neg c1, if_pos c2]
      cases hcd : s.mouseClickAndDragEnabled <;> simp
    refine ⟨hr, ?_, ?_, ?_, ?_, ?_, ?_⟩
    · rw [hr]
    · rw [hr]
    · rw [hr]
    · rw [hr]
    · rw [hr]; cases s.mouseClickAndDragEnabled <;> simp
    · rw [hr]; cases s.mouseClickAndDragEnabled <;> simp
  · intro hnd
    rw [pollEvent_not_due s now event _ hnd]
    simp only [dispatch, afterHandler]
    rw [hswipe (timerStep s now)]
    unfold timerStep
    split <;> rfl

/-- Instance of `swipe_up_toggles_click_and_drag`: in touchpad mode with no
anchor a reported 2-touch swipe up turns click-and-drag on and touchpad mode
off with no event, a second one turns click-and-drag off again and leaves
touchpad mode off; with anchor (0, 200) the drag sample (10, 50) does what the
first swipe does and clears the anchor. -/
theorem swipe_up_toggles_click_and_drag_witness :
    (exampleTouchpad.gestureStartX = -1 ∧
      handleEvent_swipe exampleTouchpad 0 noEvent kUIViewSwipeUp 2 =
        { ret := false, event := noEvent
          state := { exampleTouchpad with
            mouseClickAndDragEnabled := true, touchpadModeEnabled := false } } ∧
      handleEvent_swipe
          { exampleTouchpad with mouseClickAndDragEnabled := true, touchpadModeEnabled := false }
          5 noEvent kUIViewSwipeUp 2 =
        { ret := false, event := noEvent
          state := { exampleTouchpad with
            mouseClickAndDragEnabled := false, touchpadModeEnabled := false } }) ∧
    handleEvent_mouseSecondDragged
        { exampleTouchpad with gestureStartX := 0, gestureStartY := 200 } 0 noEvent 10 50 =
      { ret := false, event := noEvent
        state := { exampleTouchpad with
          mouseClickAndDragEnabled := true, touchpadModeEnabled := false } } ∧
    pollEvent exampleTouchpad 0 noEvent (some ⟨InputEvent.kInputSwipe, kUIViewSwipeUp, 2⟩) =
      { ret := false, event := noEvent
        state := { exampleTouchpad with
          mouseClickAndDragEnabled := true, touchpadModeEnabled := false }
        fetched := true } :=
  ⟨⟨rfl, (swipe_up_toggles_click_and_drag exampleTouchpad 0 noEvent).1.1,
    (swipe_up_toggles_click_and_drag
      { exampleTouchpad with mouseClickAndDragEnabled := true, touchpadModeEnabled := false }
      5 noEvent).1.1⟩,
   ((swipe_up_toggles_click_and_drag
      { exampleTouchpad with gestureStartX := 0, gestureStartY := 200 } 0 noEvent).2.1 10 50
      (by decide) (by decide) (by decide) (by decide)).1,
   (swipe_up_toggles_click_and_drag exampleTouchpad 0 noEvent).2.2 (Or.inl rfl)⟩

/-- C14 (three-finger swipe is an arrow key). A platform-reported swipe with
exactly 3 touches and direction up, down, left or right makes the handler emit
key-down with the Up, Down, Left or Right key code, ASCII 0 and flags 0, and
defer a key-up with the same key code, ASCII and flags, with deadline
`now + 50`. A swipe with a touch count other than 2 and 3, and a swipe with 3
touches and any other direction code, emits no event and leaves the state
unchanged. -/
theorem three_finger_swipe_arrow (s : State) (now : Int) (event : Event) :
    (∀ (direction k : Int),
      (direction = kUIViewSwipeUp ∧ k = KEYCODE_UP) ∨
      (direction = kUIViewSwipeDown ∧ k = KEYCODE_DOWN) ∨
      (direction = kUIViewSwipeLeft ∧ k = KEYCODE_LEFT) ∨
      (direction = kUIViewSwipeRight ∧ k = KEYCODE_RIGHT) →
      handleEvent_swipe s now event direction 3 =
        { ret := true
          event := { event with
            type := EventType.EVENT_KEYDOWN
            kbd := { keycode := k, ascii := 0, flags := 0 } }
          state := { s with
            queuedInputEvent := { s.queuedInputEvent with
              type := EventType.EVENT_KEYUP
              kbd := { keycode := k, ascii := 0, flags := 0 } }
            queuedEventTime := now + 50 } }) ∧
    (∀ (direction touches : Int), touches ≠ 2 → touches ≠ 3 →
      handleEvent_swipe s now event direction touches =
        { ret := false, event := event, state := s }) ∧
    (∀ (direction : Int),
      direction ≠ kUIViewSwipeUp → direction ≠ kUIViewSwipeDown →
      direction ≠ kUIViewSwipeLeft → direction ≠ kUIViewSwipeRight →
      handleEvent_swipe s now event direction 3 =
        { ret := false, event := event, state := s }) := by
  refine ⟨?_, ?_, ?_⟩
  · intro direction k h
    rcases h with ⟨hd, hk⟩ | ⟨hd, hk⟩ | ⟨hd, hk⟩ | ⟨hd, hk⟩ <;> subst hd <;> subst hk <;>
      simp [handleEvent_swipe, kUIViewSwipeUp, kUIViewSwipeDown, kUIViewSwipeLeft,
        kUIViewSwipeRight, kQueuedInputEventDelay]
  · intro direction touches h2 h3
    simp [handleEvent_swipe, h2, h3]
  · intro direction hu hd hl hr
    simp [handleEvent_swipe, hu, hd, hl, hr]

/-- Instance of `three_finger_swipe_arrow`: a 3-touch swipe left is key-down
Left (276), a 4-touch swipe is nothing. -/
theorem three_finger_swipe_arrow_witness :
    (handleEvent_swipe exampleState 0 noEvent kUIViewSwipeLeft 3).event =
      { noEvent with
        type := EventType.EVENT_KEYDOWN, kbd := { keycode := 276, ascii := 0, flags := 0 } } ∧
    (handleEvent_swipe exampleState 0 noEvent kUIViewSwipeLeft 4).ret = false :=
  ⟨congrArg HandlerResult.event
      ((three_finger_swipe_arrow exampleState 0 noEvent).1 kUIViewSwipeLeft KEYCODE_LEFT
        (Or.inr (Or.inr (Or.inl ⟨rfl, rfl⟩)))),
   congrArg HandlerResult.ret
      ((three_finger_swipe_arrow exampleState 0 noEvent).2.1 kUIViewSwipeLeft 4
        (by decide) (by decide))⟩

/-- C15 (double-tap mapping). A double tap with 1 touch makes the handler emit
right-button-down and defer right-button-up with deadline `now + 50`; a double
tap with 2 touches makes it emit key-down Escape (Escape key code and ASCII,
flags 0) and defer key-up Escape with deadline `now + 50`; every other
combination of tap description and touch count emits no event and leaves the
whole state, the deferred slot and its deadline included, unchanged. -/
theorem double_tap_mapping (s : State) (now : Int) (event : Event) :
    handleEvent_tap s now event kUIViewTapDouble 1 =
      { ret := true
        event := { event with type := EventType.EVENT_RBUTTONDOWN }
        state := { s with
          queuedInputEvent := { s.queuedInputEvent with type := EventType.EVENT_RBUTTONUP }
          queuedEventTime := now + 50 } } ∧
    handleEvent_tap s now event kUIViewTapDouble 2 =
      { ret := true
        event := { event with
          type := EventType.EVENT_KEYDOWN
          kbd := { keycode := KEYCODE_ESCAPE, ascii := ASCII_ESCAPE, flags := 0 } }
        state := { s with
          queuedInputEvent := { s.queuedInputEvent with
            type := EventType.EVENT_KEYUP
            kbd := { keycode := KEYCODE_ESCAPE, ascii := ASCII_ESCAPE, flags := 0 } }
          queuedEventTime := now + 50 } } ∧
    (∀ (type touches : Int),
      ¬ (type = kUIViewTapDouble ∧ (touches = 1 ∨ touches = 2)) →
      handleEvent_tap s now event type touches =
        { ret := false, event := event, state := s }) := by
  refine ⟨by simp [handleEvent_tap, kQueuedInputEventDelay],
    by simp [handleEvent_tap, kQueuedInputEventDelay], ?_⟩
  intro type touches h
  unfold handleEvent_tap
  by_cases h1 : touches = 1
  · have ht : type ≠ kUIViewTapDouble := fun ht => h ⟨ht, Or.inl h1⟩
    simp [h1, ht]
  · by_cases h2 : touches = 2
    · have ht : type ≠ kUIViewTapDouble := fun ht => h ⟨ht, Or.inr h2⟩
      simp [h2, ht]
    · simp [h1, h2]

/-- Instance of `double_tap_mapping`: a single tap with 1 touch and a double
tap with 3 touches are nothing. -/
theorem double_tap_mapping_witness :
    (handleEvent_tap exampleState 0 noEvent kUIViewTapSingle 1).ret = false ∧
    (handleEvent_tap exampleState 0 noEvent kUIViewTapDouble 3).ret = false :=
  ⟨congrArg HandlerResult.ret
      ((double_tap_mapping exampleState 0 noEvent).2.2 kUIViewTapSingle 1 (by decide)),
   congrArg HandlerResult.ret
      ((double_tap_mapping exampleState 0 noEvent).2.2 kUIViewTapDouble 3 (by decide))⟩

/-! ## Secondary finger in click-and-drag mode -/

/-- The secondary-finger down poll, with no due deferred event. In
click-and-drag mode it returns left-button-up at the current cursor position
and puts right-button-down at that position in the deferred slot; the handler
assigns no deadline, so `queuedEventTime` keeps the value stored before. With
click-and-drag off it returns no event and only records the down timestamp,
the anchor and the secondary-finger flag. -/
theorem pollEvent_secondDown_result (s : State) (t : Int) (e : Event) (x y : Int)
    (hq : s.queuedInputEvent.type = EventType.EVENT_INVALID ∨ t < s.queuedEventTime) :
    (s.mouseClickAndDragEnabled = true →
      pollEvent s t e (some ⟨InputEvent.kInputMouseSecondDown, x, y⟩) =
        { ret := true
          event := { e with
            type := EventType.EVENT_LBUTTONUP
            mouse := ⟨s.videoContext.mouseX, s.videoContext.mouseY⟩ }
          state := { s with
            timerCallbackNext := (timerStep s t).timerCallbackNext
            secondaryTapped := true, lastSecondaryDown := t
            gestureStartX := x, gestureStartY := y
            queuedInputEvent := { s.queuedInputEvent with
              type := EventType.EVENT_RBUTTONDOWN
              mouse := ⟨s.videoContext.mouseX, s.videoContext.mouseY⟩ } }
          fetched := true }) ∧
    (s.mouseClickAndDragEnabled = false →
      pollEvent s t e (some ⟨InputEvent.kInputMouseSecondDown, x, y⟩) =
        { ret := false
          event := e
          state := { s with
            timerCallbackNext := (timerStep s t).timerCallbackNext
            secondaryTapped := true, lastSecondaryDown := t
            gestureStartX := x, gestureStartY := y }
          fetched := true }) := by
  constructor
  · intro hcd
    rw [pollEvent_not_due s t e _ hq]
    simp only [dispatch, afterHandler, handleEvent_secondMouseDown]
    unfold timerStep
    split <;> simp [hcd]
  · intro hcd
    rw [pollEvent_not_due s t e _ hq]
    simp only [dispatch, afterHandler, handleEvent_secondMouseDown]
    unfold timerStep
    split <;> simp [hcd]

/-- C16 (right click lands one poll later), the code at a failing input. From
the initial state: a reported 2-touch swipe up polled at 900 turns
click-and-drag on; a main-menu request polled at 1000 is returned, leaves the
deferred slot empty and arms the deadline 1050; the secondary-finger down
polled at 1010 (click-and-drag on, no due deferred event) returns
left-button-up and puts right-button-down in the slot, but the handler assigns
no deadline, so the deadline is still 1050; the immediately following poll, at
the later time 1020, returns no event and the right-button-down stays in the
slot. It is delivered only by a poll at 1050 or later. Each entry below is the
result of one poll: returned, type of the buffer, type in the slot, deadline. -/
theorem right_click_not_delivered_next_poll :
    (runPolls exampleState
      [⟨900, noEvent, some ⟨InputEvent.kInputSwipe, kUIViewSwipeUp, 2⟩⟩,
       ⟨1000, noEvent, some ⟨InputEvent.kInputMainMenu, 0, 0⟩⟩,
       ⟨1010, noEvent, some ⟨InputEvent.kInputMouseSecondDown, 5, 7⟩⟩,
       ⟨1020, noEvent, none⟩,
       ⟨1050, noEvent, none⟩]).map
      (fun r => (r.ret, r.event.type, r.state.queuedInputEvent.type, r.state.queuedEventTime)) =
      [(false, EventType.EVENT_INVALID, EventType.EVENT_INVALID, 0),
       (true, EventType.EVENT_MAINMENU, EventType.EVENT_INVALID, 1050),
       (true, EventType.EVENT_LBUTTONUP, EventType.EVENT_RBUTTONDOWN, 1050),
       (false, EventType.EVENT_INVALID, EventType.EVENT_RBUTTONDOWN, 1050),
       (true, EventType.EVENT_RBUTTONDOWN, EventType.EVENT_INVALID, 1050)] ∧
    (finalState exampleState
      [⟨900, noEvent, some ⟨InputEvent.kInputSwipe, kUIViewSwipeUp, 2⟩⟩,
       ⟨1000, noEvent, some ⟨InputEvent.kInputMainMenu, 0, 0⟩⟩]).mouseClickAndDragEnabled =
      true := by
  decide

/-- C17, as stated, fails: in click-and-drag mode a secondary tap that is not
the second tap of a double tap produces no event. After the secondary-finger
down at 1000 (whose deferred right-button-down has been delivered), the up
polled at 1100 reaches the handler and returns nothing: no right-button-up
follows the right-button-down. -/
theorem secondary_up_no_event_counterexample :
    exampleRightDown.mouseClickAndDragEnabled = true ∧
    (handleEvent_secondMouseUp exampleRightDown 1100 noEvent 5 7).ret = false ∧
    pollEvent exampleRightDown 1100 noEvent (some ⟨InputEvent.kInputMouseSecondUp, 5, 7⟩) =
      { ret := false, event := noEvent
        state := { exampleRightDown with secondaryTapped := false }, fetched := true } := by
  decide

/-- C17, amended. In click-and-drag mode the secondary-up handler produces an
event exactly when the up is not a tap (400 ms or more since the secondary
down) or comes less than 400 ms after the recorded last-tap timestamp with no
overlay visible. Whenever it produces an event, the type is right-button-up at
the current cursor position: for a non-tap the state is unchanged, and in the
other case the right-button-up replaces the key-down Escape chosen by the tap
branch, whose key code stays in the buffer and whose key-up is still enqueued
with deadline `now + 50`. For any other tap the handler produces no event and
changes nothing. The handler never records the time of a tap in this mode (the
last-tap timestamp is kept or reset to 0), so two rapid taps made in
click-and-drag mode are no double tap: when the first up is outside the
400 ms window, the up of a second tap at any later time produces no event
either. -/
theorem secondary_up_click_and_drag (s : State) (now : Int) (event : Event) (x y : Int)
    (hcd : s.mouseClickAndDragEnabled = true) :
    let r := handleEvent_secondMouseUp s now event x y
    let cursor : Point := ⟨s.videoContext.mouseX, s.videoContext.mouseY⟩
    (r.ret = true ↔
      (400 ≤ now - s.lastSecondaryDown ∨
        (now - s.lastSecondaryTap < 400 ∧ s.videoContext.overlayVisible = false))) ∧
    (r.ret = true → r.event.type = EventType.EVENT_RBUTTONUP ∧ r.event.mouse = cursor) ∧
    (400 ≤ now - s.lastSecondaryDown →
      r = { ret := true
            event := { event with type := EventType.EVENT_RBUTTONUP, mouse := cursor }
            state := s }) ∧
    (now - s.lastSecondaryDown < 400 →
      now - s.lastSecondaryTap < 400 ∧ s.videoContext.overlayVisible = false →
      r = { ret := true
            event :=
              { event with
                type := EventType.EVENT_RBUTTONUP
                kbd := { keycode := KEYCODE_ESCAPE, ascii := ASCII_ESCAPE, flags := 0 }
                mouse := cursor }
            state := { s with
              queuedInputEvent := { s.queuedInputEvent with
                type := EventType.EVENT_KEYUP
                kbd := { keycode := KEYCODE_ESCAPE, ascii := ASCII_ESCAPE, flags := 0 } }
              queuedEventTime := now + 50
              lastSecondaryTap := 0 } }) ∧
    (r.ret = false → r = { ret := false, event := event, state := s }) ∧
    (r.state.lastSecondaryTap = s.lastSecondaryTap ∨ r.state.lastSecondaryTap = 0) ∧
    r.state.mouseClickAndDragEnabled = true ∧
    (∀ (d2 u2 : Int) (e2 e3 : Event) (x2 y2 x3 y3 : Int),
      now - s.lastSecondaryDown < 400 → 400 ≤ now - s.lastSecondaryTap →
      now ≤ u2 → u2 - d2 < 400 →
      (dispatch (dispatch r.state d2 e2 ⟨InputEvent.kInputMouseSecondDown, x2, y2⟩).state
        u2 e3 ⟨InputEvent.kInputMouseSecondUp, x3, y3⟩).ret = false) := by
  intro r cursor
  have hsecond : ∀ (d2 u2 : Int) (e2 e3 : Event) (x2 y2 x3 y3 : Int),
      400 ≤ now - s.lastSecondaryTap → now ≤ u2 → u2 - d2 < 400 →
      (dispatch (dispatch s d2 e2 ⟨InputEvent.kInputMouseSecondDown, x2, y2⟩).state
        u2 e3 ⟨InputEvent.kInputMouseSecondUp, x3, y3⟩).ret = false := by
    intro d2 u2 e2 e3 x2 y2 x3 y3 h1 h2 h3
    have h4 : ¬ (u2 - s.lastSecondaryTap < 400) := by omega
    simp [dispatch, afterHandler, handleEvent_secondMouseDown, handleEvent_secondMouseUp,
      hcd, h3, h4]
  by_cases htap : now - s.lastSecondaryDown < 400
  · by_cases hdouble : now - s.lastSecondaryTap < 400 ∧ s.videoContext.overlayVisible = false
    · have hr : r =
          { ret := true
            event :=
              { event with
                type := EventType.EVENT_RBUTTONUP
                kbd := { keycode := KEYCODE_ESCAPE, ascii := ASCII_ESCAPE, flags := 0 }
                mouse := cursor }
            state := { s with
              queuedInputEvent := { s.queuedInputEvent with
                type := EventType.EVENT_KEYUP
                kbd := { keycode := KEYCODE_ESCAPE, ascii := ASCII_ESCAPE, flags := 0 } }
              queuedEventTime := now + 50
              lastSecondaryTap := 0 } } := by
        show handleEvent_secondMouseUp s now event x y = _
        simp [handleEvent_secondMouseUp, htap, hdouble, hcd, kQueuedInputEventDelay, cursor]
      refine ⟨?_, ?_, ?_, ?_, ?_, ?_, ?_, ?_⟩
      · rw [hr]; simp only [true_iff]; exact Or.inr hdouble
      · intro _; rw [hr]; exact ⟨rfl, rfl⟩
      · intro h; omega
      · intro _ _; exact hr
      · intro h; rw [hr] at h; simp at h
      · rw [hr]; exact Or.inr rfl
      · rw [hr]; exact hcd
      · intro d2 u2 e2 e3 x2 y2 x3 y3 _ h1 _ _
        have := hdouble.1
        omega
    · have hr : r = { ret := false, event := event, state := s } := by
        show handleEvent_secondMouseUp s now event x y = _
        simp [handleEvent_secondMouseUp, htap, hdouble, hcd]
      refine ⟨?_, ?_, ?_, ?_, ?_, ?_, ?_, ?_⟩
      · rw [hr]
        simp only [Bool.false_eq_true, false_iff]
        rintro (h | h)
        · omega
        · exact hdouble h
      · intro h; rw [hr] at h; simp at h
      · intro h; omega
      · intro _ h; exact absurd h hdouble
      · intro _; exact hr
      · rw [hr]; exact Or.inl rfl
      · rw [hr]; exact hcd
      · intro d2 u2 e2 e3 x2 y2 x3 y3 _ h1 h2 h3
        rw [hr]
        exact hsecond d2 u2 e2 e3 x2 y2 x3 y3 h1 h2 h3
  · have hr : r =
        { ret := true
          event := { event with type := EventType.EVENT_RBUTTONUP, mouse := cursor }
          state := s } := by
      show handleEvent_secondMouseUp s now event x y = _
      simp [handleEvent_secondMouseUp, htap, hcd, cursor]
    refine ⟨?_, ?_, ?_, ?_, ?_, ?_, ?_, ?_⟩
    · rw [hr]; simp only [true_iff]; left; omega
    · intro _; rw [hr]; exact ⟨rfl, rfl⟩
    · intro _; exact hr
    · intro h; exact absurd h htap
    · intro h; rw [hr] at h; simp at h
    · rw [hr]; exact Or.inl rfl
    · rw [hr]; exact hcd
    · intro d2 u2 e2 e3 x2 y2 x3 y3 h _ _ _
      exact absurd h htap

/-- Instance of `secondary_up_click_and_drag`: after the secondary-finger down
at 1000 in click-and-drag mode, an up at 1500 (not a tap) is right-button-up at
the cursor (10, 20), an up at 1100 (a tap) is nothing, and after that tap the
up of a second tap (down at 1200, up at 1300) is nothing either. -/
theorem secondary_up_click_and_drag_witness :
    handleEvent_secondMouseUp exampleRightDown 1500 noEvent 5 7 =
      { ret := true
        event := { noEvent with type := EventType.EVENT_RBUTTONUP, mouse := ⟨10, 20⟩ }
        state := exampleRightDown } ∧
    handleEvent_secondMouseUp exampleRightDown 1100 noEvent 5 7 =
      { ret := false, event := noEvent, state := exampleRightDown } ∧
    (dispatch (dispatch (handleEvent_secondMouseUp exampleRightDown 1100 noEvent 5 7).state
      1200 noEvent ⟨InputEvent.kInputMouseSecondDown, 5, 7⟩).state
      1300 noEvent ⟨InputEvent.kInputMouseSecondUp, 5, 7⟩).ret = false :=
  ⟨(secondary_up_click_and_drag exampleRightDown 1500 noEvent 5 7 (by decide)).2.2.1
      (by decide),
   (secondary_up_click_and_drag exampleRightDown 1100 noEvent 5 7 (by decide)).2.2.2.2.1
      (by decide),
   (secondary_up_click_and_drag exampleRightDown 1100 noEvent 5 7 (by decide)).2.2.2.2.2.2.2
      1200 1300 noEvent noEvent 5 7 5 7 (by decide) (by decide) (by decide) (by decide)⟩

/-! ## Minimum hold time -/

/-- After the `switch` on a fetched raw event the deferred slot holds no up
event, or slot and deadline are as before, or the handler returned an event and
set the deadline to `now + 50`. -/
theorem dispatch_up_enqueued (s : State) (now : Int) (event : Event) (ie : InternalEvent) :
    isUpEvent (dispatch s now event ie).state.queuedInputEvent.type = false ∨
    ((dispatch s now event ie).state.queuedInputEvent = s.queuedInputEvent ∧
      (dispatch s now event ie).state.queuedEventTime = s.queuedEventTime) ∨
    ((dispatch s now event ie).ret = true ∧
      (dispatch s now event ie).state.queuedEventTime = now + 50) := by
  obtain ⟨ty, v1, v2⟩ := ie
  cases ty <;>
    simp only [dispatch, afterHandler, handleEvent_mouseDown, handleEvent_mouseUp,
      handleEvent_mouseDragged, handleEvent_mouseSecondDragged, handleEvent_secondMouseDown,
      handleEvent_secondMouseUp, handleEvent_keyPressed, handleEvent_swipe, handleEvent_tap,
      handleEvent_orientationChanged, warpMouse, kQueuedInputEventDelay] <;>
    (try split_ifs) <;> (try simp [isUpEvent]) <;> (try split_ifs) <;> (try simp [isUpEvent])

/-- When a poll leaves an up event in the deferred slot, either slot and
deadline are as before the poll, or the poll ran a handler that returned an
event and set the deadline to `now + 50`. -/
theorem pollEvent_up_enqueued (s : State) (now : Int) (event : Event)
    (raw : Option InternalEvent)
    (hup : isUpEvent (pollEvent s now event raw).state.queuedInputEvent.type = true) :
    ((pollEvent s now event raw).state.queuedInputEvent = s.queuedInputEvent ∧
      (pollEvent s now event raw).state.queuedEventTime = s.queuedEventTime) ∨
    ((pollEvent s now event raw).fetched = true ∧ (pollEvent s now event raw).ret = true ∧
      (pollEvent s now event raw).state.queuedEventTime = now + 50) := by
  by_cases h : s.queuedInputEvent.type = EventType.EVENT_INVALID ∨ now < s.queuedEventTime
  · have hf := (fetched_iff s now event raw).2 h
    rw [pollEvent_not_due s now event raw h] at hup ⊢
    cases raw with
    | none => exact Or.inl ⟨timerStep_queuedInputEvent s now, timerStep_queuedEventTime s now⟩
    | some ie =>
      simp only at hup ⊢
      rcases dispatch_up_enqueued (timerStep s now) now event ie with h1 | ⟨h1, h2⟩ | ⟨h1, h2⟩
      · rw [h1] at hup; exact absurd hup Bool.false_ne_true
      · rw [timerStep_queuedInputEvent] at h1
        rw [timerStep_queuedEventTime] at h2
        exact Or.inl ⟨h1, h2⟩
      · rw [pollEvent_not_due s now event (some ie) h] at hf
        exact Or.inr ⟨hf, h1, h2⟩
  · push_neg at h
    rw [pollEvent_due s now event raw h.1 h.2] at hup
    simp [isUpEvent] at hup

/-- C18 (minimum hold time). Start in a state whose deferred slot holds no up
event (such as the initial state) and run any sequence of polls, at any times
and over any raw events. Whenever the slot then holds an up event
(left-button-up, right-button-up or key-up), some poll `c` of the sequence ran
a handler that returned an event and left exactly this slot, and the deadline
is the time of that poll plus 50. Hence whenever a further poll at time `d`
returns a deferred up event, it does so at least 50 ms after the poll that
enqueued it: `c.now + 50 ≤ d`. -/
theorem minimum_hold_time (s0 : State) (h0 : isUpEvent s0.queuedInputEvent.type = false)
    (pre : List PollCall) :
    (isUpEvent (finalState s0 pre).queuedInputEvent.type = true →
      ∃ (pre1 : List PollCall) (c : PollCall) (post1 : List PollCall),
        pre = pre1 ++ c :: post1 ∧
        (pollEvent (finalState s0 pre1) c.now c.event c.raw).fetched = true ∧
        (pollEvent (finalState s0 pre1) c.now c.event c.raw).ret = true ∧
        (pollEvent (finalState s0 pre1) c.now c.event c.raw).state.queuedInputEvent =
          (finalState s0 pre).queuedInputEvent ∧
        (finalState s0 pre).queuedEventTime = c.now + 50) ∧
    (∀ (d : Int) (e : Event) (raw : Option InternalEvent),
      (pollEvent (finalState s0 pre) d e raw).fetched = false →
      isUpEvent (pollEvent (finalState s0 pre) d e raw).event.type = true →
      ∃ (pre1 : List PollCall) (c : PollCall) (post1 : List PollCall),
        pre = pre1 ++ c :: post1 ∧
        (pollEvent (finalState s0 pre1) c.now c.event c.raw).fetched = true ∧
        (pollEvent (finalState s0 pre1) c.now c.event c.raw).ret = true ∧
        (pollEvent (finalState s0 pre1) c.now c.event c.raw).state.queuedInputEvent =
          (pollEvent (finalState s0 pre) d e raw).event ∧
        c.now + 50 ≤ d) := by
  have inv : ∀ (l : List PollCall),
      isUpEvent (finalState s0 l).queuedInputEvent.type = true →
      ∃ (pre1 : List PollCall) (c : PollCall) (post1 : List PollCall),
        l = pre1 ++ c :: post1 ∧
        (pollEvent (finalState s0 pre1) c.now c.event c.raw).fetched = true ∧
        (pollEvent (finalState s0 pre1) c.now c.event c.raw).ret = true ∧
        (pollEvent (finalState s0 pre1) c.now c.event c.raw).state.queuedInputEvent =
          (finalState s0 l).queuedInputEvent ∧
        (finalState s0 l).queuedEventTime = c.now + 50 := by
    intro l
    induction l using List.reverseRecOn with
    | nil =>
      intro hup
      simp only [finalState] at hup
      rw [h0] at hup
      exact absurd hup Bool.false_ne_true
    | append_singleton l a ih =>
      intro hup
      have hfs : finalState s0 (l ++ [a]) =
          (pollEvent (finalState s0 l) a.now a.event a.raw).state := by
        rw [finalState_append]; rfl
      rw [hfs] at hup ⊢
      rcases pollEvent_up_enqueued (finalState s0 l) a.now a.event a.raw hup with
        ⟨h1, h2⟩ | ⟨h1, h2, h3⟩
      · rw [h1] at hup
        obtain ⟨pre1, c, post1, hl, c1, c2, c3, c4⟩ := ih hup
        refine ⟨pre1, c, post1 ++ [a], ?_, c1, c2, ?_, ?_⟩
        · rw [hl]; simp
        · rw [h1]; exact c3
        · rw [h2]; exact c4
      · exact ⟨l, a, [], rfl, h1, h2, rfl, h3⟩
  refine ⟨inv pre, ?_⟩
  intro d e raw hf hup
  have hdue : (finalState s0 pre).queuedInputEvent.type ≠ EventType.EVENT_INVALID ∧
      (finalState s0 pre).queuedEventTime ≤ d := by
    by_contra hc
    have : (finalState s0 pre).queuedInputEvent.type = EventType.EVENT_INVALID ∨
        d < (finalState s0 pre).queuedEventTime := by
      by_cases hv : (finalState s0 pre).queuedInputEvent.type = EventType.EVENT_INVALID
      · exact Or.inl hv
      · right
        by_contra hlt
        exact hc ⟨hv, by omega⟩
    rw [(fetched_iff _ d e raw).2 this] at hf
    exact Bool.noConfusion hf
  rw [pollEvent_due _ d e raw hdue.1 hdue.2] at hup ⊢
  simp only at hup ⊢
  obtain ⟨pre1, c, post1, hl, c1, c2, c3, c4⟩ := inv pre hup
  exact ⟨pre1, c, post1, hl, c1, c2, c3, by omega⟩

/-- Instance of `minimum_hold_time`: from the initial state, a key press polled
at 1000 is followed by its key-up at 1050, and the enqueuing poll is the one at
1000. -/
theorem minimum_hold_time_witness :
    ∃ (pre1 : List PollCall) (c : PollCall) (post1 : List PollCall),
      [(⟨1000, noEvent, some ⟨InputEvent.kInputKeyPressed, 65, 0⟩⟩ : PollCall)] =
        pre1 ++ c :: post1 ∧
      (pollEvent (finalState exampleState pre1) c.now c.event c.raw).fetched = true ∧
      (pollEvent (finalState exampleState pre1) c.now c.event c.raw).ret = true ∧
      (pollEvent (finalState exampleState pre1) c.now c.event c.raw).state.queuedInputEvent =
        (pollEvent (finalState exampleState
          [⟨1000, noEvent, some ⟨InputEvent.kInputKeyPressed, 65, 0⟩⟩]) 1050 noEvent none).event ∧
      c.now + 50 ≤ 1050 :=
  (minimum_hold_time exampleState (by decide)
    [⟨1000, noEvent, some ⟨InputEvent.kInputKeyPressed, 65, 0⟩⟩]).2 1050 noEvent none
    (by decide) (by decide)

/-! ## Joystick -/

/-- C19 (joystick-button-up merges into input-changed). With no due deferred
event, polling a raw joystick-button-up with button `b` returns an event of
type input-changed (not joystick-button-up) whose joystick button is `b`,
empties the deferred slot and sets the deadline to `now + 50`: the state after
it is the state after a raw input-device-changed event. A raw
joystick-button-down returns joystick-button-down with button `b`, and a raw
axis motion returns joystick-axis-motion with the given axis and position; both
leave the deferred slot and the rest of the translator state unchanged. -/
theorem joystick_button_up_merges (s : State) (now : Int) (event : Event)
    (hq : s.queuedInputEvent.type = EventType.EVENT_INVALID ∨ now < s.queuedEventTime)
    (b v2 axis position w1 w2 : Int) :
    pollEvent s now event (some ⟨InputEvent.kInputJoystickButtonUp, b, v2⟩) =
      { ret := true
        event := { event with
          type := EventType.EVENT_INPUT_CHANGED
          joystick := { event.joystick with button := b } }
        state := { s with
          timerCallbackNext := (timerStep s now).timerCallbackNext
          queuedInputEvent := { s.queuedInputEvent with type := EventType.EVENT_INVALID }
          queuedEventTime := now + 50 }
        fetched := true } ∧
    (pollEvent s now event (some ⟨InputEvent.kInputJoystickButtonUp, b, v2⟩)).event.type ≠
      EventType.EVENT_JOYBUTTON_UP ∧
    (pollEvent s now event (some ⟨InputEvent.kInputJoystickButtonUp, b, v2⟩)).state =
      (pollEvent s now event (some ⟨InputEvent.kInputChanged, w1, w2⟩)).state ∧
    pollEvent s now event (some ⟨InputEvent.kInputChanged, w1, w2⟩) =
      { ret := true
        event := { event with type := EventType.EVENT_INPUT_CHANGED }
        state := { s with
          timerCallbackNext := (timerStep s now).timerCallbackNext
          queuedInputEvent := { s.queuedInputEvent with type := EventType.EVENT_INVALID }
          queuedEventTime := now + 50 }
        fetched := true } ∧
    pollEvent s now event (some ⟨InputEvent.kInputJoystickButtonDown, b, v2⟩) =
      { ret := true
        event := { event with
          type := EventType.EVENT_JOYBUTTON_DOWN
          joystick := { event.joystick with button := b } }
        state := { s with timerCallbackNext := (timerStep s now).timerCallbackNext }
        fetched := true } ∧
    pollEvent s now event (some ⟨InputEvent.kInputJoystickAxisMotion, axis, position⟩) =
      { ret := true
        event := { event with
          type := EventType.EVENT_JOYAXIS_MOTION
          joystick := { event.joystick with axis := axis, position := position } }
        state := { s with timerCallbackNext := (timerStep s now).timerCallbackNext }
        fetched := true } := by
  have hup : pollEvent s now event (some ⟨InputEvent.kInputJoystickButtonUp, b, v2⟩) =
      { ret := true
        event := { event with
          type := EventType.EVENT_INPUT_CHANGED
          joystick := { event.joystick with button := b } }
        state := { s with
          timerCallbackNext := (timerStep s now).timerCallbackNext
          queuedInputEvent := { s.queuedInputEvent with type := EventType.EVENT_INVALID }
          queuedEventTime := now + 50 }
        fetched := true } := by
    rw [pollEvent_not_due s now event _ hq]
    simp only [dispatch, kQueuedInputEventDelay]
    unfold timerStep
    split <;> rfl
  have hch : pollEvent s now event (some ⟨InputEvent.kInputChanged, w1, w2⟩) =
      { ret := true
        event := { event with type := EventType.EVENT_INPUT_CHANGED }
        state := { s with
          timerCallbackNext := (timerStep s now).timerCallbackNext
          queuedInputEvent := { s.queuedInputEvent with type := EventType.EVENT_INVALID }
          queuedEventTime := now + 50 }
        fetched := true } := by
    rw [pollEvent_not_due s now event _ hq]
    simp only [dispatch, kQueuedInputEventDelay]
    unfold timerStep
    split <;> rfl
  refine ⟨hup, ?_, ?_, hch, ?_, ?_⟩
  · rw [hup]; simp
  · rw [hup, hch]
  · rw [pollEvent_not_due s now event _ hq]
    simp only [dispatch]
    unfold timerStep
    split <;> rfl
  · rw [pollEvent_not_due s now event _ hq]
    simp only [dispatch]
    unfold timerStep
    split <;> rfl

/-- Instance of `joystick_button_up_merges`: in the initial state a raw
joystick-button-up with button 3 is returned as input-changed with button 3. -/
theorem joystick_button_up_merges_witness :
    (pollEvent exampleState 0 noEvent (some ⟨InputEvent.kInputJoystickButtonUp, 3, 0⟩)).event =
      { noEvent with
        type := EventType.EVENT_INPUT_CHANGED
        joystick := { axis := 0, position := 0, button := 3 } } :=
  congrArg PollResult.event
    (joystick_button_up_merges exampleState 0 noEvent (Or.inl rfl) 3 0 0 0 0 0).1

/-! ## The two modes together -/

/-- C20 (touchpad mode and click-and-drag mode are not mutually exclusive).
For every state: a swipe up that enables click-and-drag leaves touchpad mode
off, and a swipe right negates touchpad mode and leaves click-and-drag as it
is (reported 2-touch swipes). Hence from any state with click-and-drag off, in
particular with both modes off, a swipe up followed by a swipe right, neither
of which returns an event, reaches a state with both modes on (after the swipe
up alone touchpad mode is off); the same holds when the two swipes are two-finger
drags (secondary-finger down at `(x, y)` with both coordinates different from
-1, drag sample 100 up, then again down at `(x, y)`, drag sample 100 to the
right). -/
theorem modes_not_exclusive (s : State) (hcd : s.mouseClickAndDragEnabled = false)
    (t1 t2 t3 t4 : Int) (e1 e2 e3 e4 : Event) (x y : Int) (hx : x ≠ -1) (hy : y ≠ -1) :
    let a := dispatch s t1 e1 ⟨InputEvent.kInputSwipe, kUIViewSwipeUp, 2⟩
    let b := dispatch a.state t2 e2 ⟨InputEvent.kInputSwipe, kUIViewSwipeRight, 2⟩
    let d1 := dispatch s t1 e1 ⟨InputEvent.kInputMouseSecondDown, x, y⟩
    let g1 := dispatch d1.state t2 e2 ⟨InputEvent.kInputMouseSecondDragged, x, y - 100⟩
    let d2 := dispatch g1.state t3 e3 ⟨InputEvent.kInputMouseSecondDown, x, y⟩
    let g2 := dispatch d2.state t4 e4 ⟨InputEvent.kInputMouseSecondDragged, x + 100, y⟩
    (∀ (s' : State) (now : Int) (e : Event),
      (handleEvent_swipe s' now e kUIViewSwipeUp 2).state.mouseClickAndDragEnabled = true →
      (handleEvent_swipe s' now e kUIViewSwipeUp 2).state.touchpadModeEnabled = false) ∧
    (∀ (s' : State) (now : Int) (e : Event),
      (handleEvent_swipe s' now e kUIViewSwipeRight 2).state.mouseClickAndDragEnabled =
        s'.mouseClickAndDragEnabled ∧
      (handleEvent_swipe s' now e kUIViewSwipeRight 2).state.touchpadModeEnabled =
        (!s'.touchpadModeEnabled)) ∧
    (a.ret = false ∧ a.state.mouseClickAndDragEnabled = true ∧
      a.state.touchpadModeEnabled = false) ∧
    (b.ret = false ∧ b.state.mouseClickAndDragEnabled = true ∧
      b.state.touchpadModeEnabled = true) ∧
    (g1.ret = false ∧ g1.state.mouseClickAndDragEnabled = true ∧
      g1.state.touchpadModeEnabled = false) ∧
    (g2.ret = false ∧ g2.state.mouseClickAndDragEnabled = true ∧
      g2.state.touchpadModeEnabled = true) := by
  intro a b d1 g1 d2 g2
  have ha : a = { ret := false, event := e1,
                  state := { s with mouseClickAndDragEnabled := true, touchpadModeEnabled := false },
                  fetched := true } := by
    show dispatch s t1 e1 _ = _
    simp [dispatch, afterHandler, handleEvent_swipe, kUIViewSwipeUp, hcd]
  have hb : b = { ret := false, event := e2,
                  state := { s with mouseClickAndDragEnabled := true, touchpadModeEnabled := true },
                  fetched := true } := by
    show dispatch a.state t2 e2 _ = _
    rw [ha]
    simp [dispatch, afterHandler, handleEvent_swipe, kUIViewSwipeUp, kUIViewSwipeDown,
      kUIViewSwipeRight]
  have hd1 : d1 = _ := dispatch_secondDown_plain s t1 e1 x y hcd
  have v1 : y - 100 - y = -100 := by ring
  have v2 : x + 100 - x = 100 := by ring
  have hg1 : g1 =
      { ret := false, event := e2
        state := { s with
          secondaryTapped := true, lastSecondaryDown := t1
          gestureStartX := -1, gestureStartY := -1
          mouseClickAndDragEnabled := true, touchpadModeEnabled := false }
        fetched := true } := by
    show dispatch d1.state t2 e2 _ = _
    rw [hd1]
    simp [dispatch, afterHandler, handleEvent_mouseSecondDragged, hcd, hx, hy, v1,
      kNeededLength, kMaxDeviation]
  have hg2 : g2 =
      { ret := false, event := e4
        state := { s with
          secondaryTapped := true, lastSecondaryDown := t3
          gestureStartX := -1, gestureStartY := -1
          mouseClickAndDragEnabled := true, touchpadModeEnabled := true
          queuedInputEvent := { s.queuedInputEvent with
            type := EventType.EVENT_RBUTTONDOWN
            mouse := ⟨s.videoContext.mouseX, s.videoContext.mouseY⟩ } }
        fetched := true } := by
    show dispatch (dispatch g1.state t3 e3 _).state t4 e4 _ = _
    rw [hg1]
    simp [dispatch, afterHandler, handleEvent_secondMouseDown, handleEvent_mouseSecondDragged,
      hx, hy, v2, kNeededLength, kMaxDeviation]
  refine ⟨?_, ?_, ?_, ?_, ?_, ?_⟩
  · intro s' now e
    cases hc : s'.mouseClickAndDragEnabled <;>
      simp [handleEvent_swipe, kUIViewSwipeUp, hc]
  · intro s' now e
    simp [handleEvent_swipe, kUIViewSwipeUp, kUIViewSwipeDown, kUIViewSwipeRight]
  · rw [ha]; exact ⟨rfl, rfl, rfl⟩
  · rw [hb]; exact ⟨rfl, rfl, rfl⟩
  · rw [hg1]; exact ⟨rfl, rfl, rfl⟩
  · rw [hg2]; exact ⟨rfl, rfl, rfl⟩

/-- Instance of `modes_not_exclusive`: from the initial state, with both modes
off, a reported 2-touch swipe up and then a reported 2-touch swipe right leave
both modes on; the same two raw events polled at 0 and 10 reach that state. -/
theorem modes_not_exclusive_witness :
    exampleState.touchpadModeEnabled = false ∧
    exampleState.mouseClickAndDragEnabled = false ∧
    ((dispatch (dispatch exampleState 0 noEvent
        ⟨InputEvent.kInputSwipe, kUIViewSwipeUp, 2⟩).state 10 noEvent
        ⟨InputEvent.kInputSwipe, kUIViewSwipeRight, 2⟩).ret = false ∧
      (dispatch (dispatch exampleState 0 noEvent
        ⟨InputEvent.kInputSwipe, kUIViewSwipeUp, 2⟩).state 10 noEvent
        ⟨InputEvent.kInputSwipe, kUIViewSwipeRight, 2⟩).state.mouseClickAndDragEnabled = true ∧
      (dispatch (dispatch exampleState 0 noEvent
        ⟨InputEvent.kInputSwipe, kUIViewSwipeUp, 2⟩).state 10 noEvent
        ⟨InputEvent.kInputSwipe, kUIViewSwipeRight, 2⟩).state.touchpadModeEnabled = true) ∧
    (finalState exampleState
      [⟨0, noEvent, some ⟨InputEvent.kInputSwipe, kUIViewSwipeUp, 2⟩⟩,
       ⟨10, noEvent, some ⟨InputEvent.kInputSwipe, kUIViewSwipeRight, 2⟩⟩]).touchpadModeEnabled =
      true ∧
    (finalState exampleState
      [⟨0, noEvent, some ⟨InputEvent.kInputSwipe, kUIViewSwipeUp, 2⟩⟩,
       ⟨10, noEvent,
        some ⟨InputEvent.kInputSwipe, kUIViewSwipeRight, 2⟩⟩]).mouseClickAndDragEnabled = true :=
  ⟨rfl, rfl,
   (modes_not_exclusive exampleState rfl 0 10 20 30 noEvent noEvent noEvent noEvent 0 0
      (by decide) (by decide)).2.2.2.1,
   by decide, by decide⟩

end IOS7
